import Mathlib

/-!
Shallow embedding of the M5Cube board-game timer firmware (src/M5Cube.ino,
the "M5Stack Board Game Clock Timer" variant that supports Game-Timer and
Move-Timer modes).  Machine `int`s are modelled as `Int`; the accelerometer
floats are modelled as `ℚ` (the classifier only compares them against fixed
thresholds, so only the order structure matters); C integer division and
remainder (truncation toward zero) are `Int.tdiv` / `Int.tmod`.  Stateful
code is explicit state passing on `CubeState`; tone playback is modelled by
returning the list of `(frequency, duration)` pairs passed to `playTone`.
-/

namespace M5Cube

/-- Timer operation modes (`enum TimerMode`). -/
inductive TimerMode
  | GAME_TIMER
  | MOVE_TIMER
deriving DecidableEq

/-- Application screen states (`enum ScreenState`). -/
inductive ScreenState
  | SCREEN_SOUND_SELECT
  | SCREEN_MODE_SELECT
  | SCREEN_SETUP
  | SCREEN_TIMER
deriving DecidableEq

open TimerMode ScreenState

/-- Audio constant `TONE_FREQ_HIGH`. -/
def TONE_FREQ_HIGH : Int := 2800

/-- Audio constant `TONE_FREQ_MID`. -/
def TONE_FREQ_MID : Int := 1800

/-- Audio constant `TONE_FREQ_LOW`. -/
def TONE_FREQ_LOW : Int := 1000

/-- Audio constant `TONE_DURATION_LONG`. -/
def TONE_DURATION_LONG : Int := 100

/-- Audio constant `TONE_DURATION_WARNING`. -/
def TONE_DURATION_WARNING : Int := 100

/-- Audio constant `TONE_DURATION_SHORT`. -/
def TONE_DURATION_SHORT : Int := 50

/-- IMU sensitivity threshold `ACCEL_THRESHOLD` (0.9g in this variant; the
single-mode variant in the same file uses 0.7g, which is why the classifier
below is parameterised by the threshold). -/
def ACCEL_THRESHOLD : ℚ := 9 / 10

/-- Face-down threshold `ACCEL_THRESHOLD_BACK`. -/
def ACCEL_THRESHOLD_BACK : ℚ := -(9 / 10)

/-- A tone event: the `(frequency, duration)` pair handed to `playTone`. -/
abbrev Tone := Int × Int

/-- The global mutable variables of the sketch that the timer logic and the
input dispatcher read or write.  Timing counters (`millis()` bookkeeping)
and the long-press tracking variables are not represented: ticks and press
edges are modelled as explicit events. -/
structure CubeState where
  currentScreen : ScreenState
  currentTimerMode : TimerMode
  soundEnabled : Bool
  soundSelectPosition : Int
  modeSelectPosition : Int
  timeList : Fin 5 → Int
  negativeList : Fin 5 → Int
  moveTimeRemaining : Int
  currentFace : Int
  statusFlg : Bool
  startFlg : Bool
  pauseFlg : Bool
  updatePosition : Int
  dig01 : Int
  dig02 : Int
  dig03 : Int
  dig04 : Int
  initDig01 : Int
  initDig02 : Int
  initDig03 : Int
  initDig04 : Int
  moveTimerDig01 : Int
  moveTimerDig02 : Int
  moveTimerDig03 : Int
  moveTimerDig04 : Int
  blinkState : Bool
  warningPlayed : Bool
  needsFullRedraw : Bool
  needsBatteryUpdate : Bool
  isDisplayOn : Bool
  isPlayingWarningSound : Bool
  warning10secPlayed : Fin 5 → Bool
  warning5secPlayed : Fin 5 → Bool
  warning4secPlayed : Fin 5 → Bool
  warning3secPlayed : Fin 5 → Bool
  warning2secPlayed : Fin 5 → Bool
  warning1secPlayed : Fin 5 → Bool

/-- Pointwise array write `a[i] = v` on a 5-entry array. -/
def updF {α : Type} (f : Fin 5 → α) (i : Fin 5) (v : α) : Fin 5 → α :=
  fun j => if j = i then v else f j

/-- Utility `isValidPlayerIndex`: `playerIndex >= 0 && playerIndex < MAX_PLAYERS`. -/
def isValidPlayerIndex (playerIndex : Int) : Bool :=
  decide (0 ≤ playerIndex ∧ playerIndex < 5)

/-- A C `int` player index turned into a `Fin 5` when `isValidPlayerIndex`
holds; the guarded early returns of the sketch map to the `none` case. -/
def toIdx (playerIndex : Int) : Option (Fin 5) :=
  if h : 0 ≤ playerIndex ∧ playerIndex < 5 then
    some ⟨playerIndex.toNat, by omega⟩
  else none

/-- Utility `calculateTimeDigits`: total seconds to the four MM:SS digits
(C `/` and `%`, hence `tdiv` / `tmod`). -/
def calculateTimeDigits (totalSeconds : Int) : Int × Int × Int × Int :=
  let dig1 := totalSeconds.tdiv 600
  let remainder := totalSeconds.tmod 600
  let dig2 := remainder.tdiv 60
  let secondsRemainder := remainder.tmod 60
  (dig1, dig2, secondsRemainder.tdiv 10, secondsRemainder.tmod 10)

/-- Write a digit quadruple into the shared display digits `dig01..dig04`. -/
def setDigits (s : CubeState) (d : Int × Int × Int × Int) : CubeState :=
  { s with dig01 := d.1, dig02 := d.2.1, dig03 := d.2.2.1, dig04 := d.2.2.2 }

/-- The current display digit quadruple of a state. -/
def digitsOf (s : CubeState) : Int × Int × Int × Int :=
  (s.dig01, s.dig02, s.dig03, s.dig04)

/-- Utility `formatTime`: `sprintf("%d%d:%d%d", ...)`. -/
def formatTime (dig1 dig2 dig3 dig4 : Int) : String :=
  toString dig1 ++ toString dig2 ++ ":" ++ toString dig3 ++ toString dig4

/-- The MM:SS string currently displayed by a state. -/
def displayOf (s : CubeState) : String :=
  formatTime s.dig01 s.dig02 s.dig03 s.dig04

/-- The per-value warning flag selected by the `switch (remainingSeconds)` in
`checkTimeWarnings` (the `nullptr` case cannot occur for `1 <= v <= 5`). -/
def warnFlag (s : CubeState) (v : Int) (p : Fin 5) : Bool :=
  if v = 5 then s.warning5secPlayed p
  else if v = 4 then s.warning4secPlayed p
  else if v = 3 then s.warning3secPlayed p
  else if v = 2 then s.warning2secPlayed p
  else if v = 1 then s.warning1secPlayed p
  else false

/-- Setting the per-value warning flag selected by the same `switch`. -/
def setWarnFlag (s : CubeState) (v : Int) (p : Fin 5) : CubeState :=
  if v = 5 then { s with warning5secPlayed := updF s.warning5secPlayed p true }
  else if v = 4 then { s with warning4secPlayed := updF s.warning4secPlayed p true }
  else if v = 3 then { s with warning3secPlayed := updF s.warning3secPlayed p true }
  else if v = 2 then { s with warning2secPlayed := updF s.warning2secPlayed p true }
  else if v = 1 then { s with warning1secPlayed := updF s.warning1secPlayed p true }
  else s

/-- Function `checkTimeWarnings(remainingSeconds, playerIndex)`.  The
`isPlayingWarningSound` gate is set during the blocking tone playback and
cleared right after it, so its net value after a call is `false` whenever a
tone was emitted. -/
def checkTimeWarnings (remainingSeconds : Int) (playerIndex : Int) (s : CubeState) :
    CubeState × List Tone :=
  match toIdx playerIndex with
  | none => (s, [])
  | some p =>
    if !s.soundEnabled then (s, [])
    else if remainingSeconds = 10 ∧ !s.warning10secPlayed p then
      ({ s with warning10secPlayed := updF s.warning10secPlayed p true,
                isPlayingWarningSound := false },
       [(TONE_FREQ_MID, TONE_DURATION_LONG * 2)])
    else if remainingSeconds ≤ 5 ∧ 1 ≤ remainingSeconds then
      if !warnFlag s remainingSeconds p then
        ({ setWarnFlag s remainingSeconds p with isPlayingWarningSound := false },
         [(TONE_FREQ_LOW, TONE_DURATION_WARNING * 2)])
      else (s, [])
    else (s, [])

/-- Function `resetWarningFlags(playerIndex)`: `-1` clears the flags of all
players, a valid index clears that player only; either way the
`isPlayingWarningSound` gate is cleared. -/
def resetWarningFlags (playerIndex : Int) (s : CubeState) : CubeState :=
  if playerIndex = -1 then
    { s with warning10secPlayed := fun _ => false,
             warning5secPlayed := fun _ => false,
             warning4secPlayed := fun _ => false,
             warning3secPlayed := fun _ => false,
             warning2secPlayed := fun _ => false,
             warning1secPlayed := fun _ => false,
             isPlayingWarningSound := false }
  else
    match toIdx playerIndex with
    | some p =>
      { s with warning10secPlayed := updF s.warning10secPlayed p false,
               warning5secPlayed := updF s.warning5secPlayed p false,
               warning4secPlayed := updF s.warning4secPlayed p false,
               warning3secPlayed := updF s.warning3secPlayed p false,
               warning2secPlayed := updF s.warning2secPlayed p false,
               warning1secPlayed := updF s.warning1secPlayed p false,
               isPlayingWarningSound := false }
    | none => { s with isPlayingWarningSound := false }

/-- Function `updateGameTimer(faceIndex)`: one 1-second tick of the active
player slot in Game-Timer mode. -/
def updateGameTimer (faceIndex : Int) (s : CubeState) : CubeState × List Tone :=
  match toIdx faceIndex with
  | none => (s, [])
  | some f =>
    if s.negativeList f ≠ 1 then
      if s.timeList f > 0 then
        checkTimeWarnings (s.timeList f) faceIndex
          { setDigits s (calculateTimeDigits (s.timeList f)) with
              timeList := updF s.timeList f (s.timeList f - 1) }
      else
        if s.soundEnabled then
          ({ setDigits s ((0 : Int), (0 : Int), (0 : Int), (0 : Int)) with
               negativeList := updF s.negativeList f 1,
               timeList := updF s.timeList f 1,
               isPlayingWarningSound := false },
           [(TONE_FREQ_LOW, TONE_DURATION_WARNING * 3)])
        else
          ({ setDigits s ((0 : Int), (0 : Int), (0 : Int), (0 : Int)) with
               negativeList := updF s.negativeList f 1,
               timeList := updF s.timeList f 1 }, [])
    else
      ({ setDigits s (calculateTimeDigits (s.timeList f)) with
           timeList := updF s.timeList f (s.timeList f + 1) }, [])

/-- Function `updateMoveTimer(faceIndex)`: one 1-second tick of the shared
move countdown (the face argument is unused by the source body, which reads
`currentFace` for the warning call). -/
def updateMoveTimer (faceIndex : Int) (s : CubeState) : CubeState × List Tone :=
  let _ := faceIndex
  if s.moveTimeRemaining > 0 then
    checkTimeWarnings (s.moveTimeRemaining - 1 + 1) s.currentFace
      { setDigits s (calculateTimeDigits s.moveTimeRemaining) with
          moveTimeRemaining := s.moveTimeRemaining - 1 }
  else
    if s.soundEnabled then
      ({ setDigits s ((0 : Int), (0 : Int), (0 : Int), (0 : Int)) with
           isPlayingWarningSound := false },
       [(TONE_FREQ_LOW, TONE_DURATION_WARNING * 3)])
    else (setDigits s ((0 : Int), (0 : Int), (0 : Int), (0 : Int)), [])

/-- The base seconds committed for Move-Timer mode, held in
`moveTimerDig01..moveTimerDig04`. -/
def moveTimerBase (s : CubeState) : Int :=
  s.moveTimerDig01 * 600 + s.moveTimerDig02 * 60 + s.moveTimerDig03 * 10 + s.moveTimerDig04

/-- Function `switchToNextPlayer()`: reload the shared move countdown from
the committed base digits and clear the new player's warning flags. -/
def switchToNextPlayer (s : CubeState) : CubeState :=
  resetWarningFlags s.currentFace { s with moveTimeRemaining := moveTimerBase s }

/-- Function `initializeTimers()`: commit the setup digit entry into the
timer bank (Game-Timer) or the move-timer base (Move-Timer). -/
def initializeTimers (s : CubeState) : CubeState :=
  let totalTime := s.dig01 * 600 + s.dig02 * 60 + s.dig03 * 10 + s.dig04
  if s.currentTimerMode = GAME_TIMER then
    { s with timeList := fun _ => totalTime, negativeList := fun _ => 0 }
  else
    { s with moveTimerDig01 := s.dig01, moveTimerDig02 := s.dig02,
             moveTimerDig03 := s.dig03, moveTimerDig04 := s.dig04,
             moveTimeRemaining := totalTime }

/-- Function `incrementDigit()`: bump the digit under the cursor with
wrap-around and save the digits as the new committed setup values. -/
def incrementDigit (s : CubeState) : CubeState :=
  let s1 :=
    if s.updatePosition = 0 then
      { s with dig01 := if s.dig01 < 5 then s.dig01 + 1 else 0 }
    else if s.updatePosition = 1 then
      { s with dig02 := if s.dig02 < 9 then s.dig02 + 1 else 0 }
    else if s.updatePosition = 2 then
      { s with dig03 := if s.dig03 < 5 then s.dig03 + 1 else 0 }
    else if s.updatePosition = 3 then
      { s with dig04 := if s.dig04 < 9 then s.dig04 + 1 else 0 }
    else s
  { s1 with initDig01 := s1.dig01, initDig02 := s1.dig02,
            initDig03 := s1.dig03, initDig04 := s1.dig04 }

/-- Function `nextDigitPosition()`: cursor to the next digit, circular. -/
def nextDigitPosition (s : CubeState) : CubeState :=
  { s with updatePosition := (s.updatePosition + 1).tmod 4 }

/-- Function `turnOnDisplay()`. -/
def turnOnDisplay (s : CubeState) : CubeState :=
  if !s.isDisplayOn then { s with isDisplayOn := true } else s

/-- Function `turnOffDisplay()`. -/
def turnOffDisplay (s : CubeState) : CubeState :=
  if s.isDisplayOn then { s with isDisplayOn := false } else s

/-- Function `resetToModeSelect()`. -/
def resetToModeSelect (s : CubeState) : CubeState :=
  turnOnDisplay
    { resetWarningFlags (-1)
        { s with currentScreen := SCREEN_MODE_SELECT, modeSelectPosition := 0,
                 statusFlg := false, startFlg := false } with
      needsFullRedraw := true, needsBatteryUpdate := true }

/-- The digit-restore tail of `resetToSetup()`. -/
def restoreSetupDigits (s : CubeState) : CubeState :=
  { s with dig01 := s.initDig01, dig02 := s.initDig02,
           dig03 := s.initDig03, dig04 := s.initDig04 }

/-- Function `resetToSetup()`: back to the Setup screen, restoring the
committed digits into the editable entry. -/
def resetToSetup (s : CubeState) : CubeState :=
  restoreSetupDigits (turnOnDisplay
    { resetWarningFlags (-1)
        { s with currentScreen := SCREEN_SETUP, updatePosition := 0,
                 statusFlg := false, startFlg := false } with
      needsFullRedraw := true, needsBatteryUpdate := true })

/-- Function `resetCurrentTimer()`. -/
def resetCurrentTimer (s : CubeState) : CubeState :=
  initializeTimers (turnOnDisplay
    { resetWarningFlags (-1)
        { s with statusFlg := false, startFlg := false, currentFace := 4,
                 warningPlayed := false } with
      needsFullRedraw := true, needsBatteryUpdate := true })

/-- Function `detectOrientation()`: the stateless orientation classifier,
parameterised by the threshold constant (0.9 in the dual-mode variant, 0.7
in the single-mode variant of the same source file). -/
def detectOrientation (threshold x y z : ℚ) : Int :=
  if y ≥ threshold then 0
  else if x ≥ threshold then 1
  else if y ≤ -threshold then 2
  else if x ≤ -threshold then 3
  else if z ≥ threshold then 4
  else -1

/-- The Setup-screen center-press action (inlined in
`handlePhysicalButtons` / `handleTouchButtons`): commit the digit entry,
clear warning flags, start running, switch to the Timer screen and seed the
active face from the current classifier result (default face 4). -/
def startTimerFromSetup (orientation : Int) (s : CubeState) : CubeState :=
  { resetWarningFlags (-1) (initializeTimers s) with
      statusFlg := true, startFlg := true, warningPlayed := false,
      currentScreen := SCREEN_TIMER, needsFullRedraw := true,
      needsBatteryUpdate := true,
      currentFace := if orientation ≥ 0 then orientation else 4 }

/-- The Timer-screen center-press resume action: clear warning flags, start
running and re-seed the active face from the classifier. -/
def resumeTimer (orientation : Int) (s : CubeState) : CubeState :=
  { resetWarningFlags (-1) s with
      statusFlg := true, needsFullRedraw := true, needsBatteryUpdate := true,
      currentFace := if orientation ≥ 0 then orientation else 4 }

/-- The Timer-screen center-press pause action. -/
def pauseTimer (s : CubeState) : CubeState :=
  { s with statusFlg := false, needsFullRedraw := true, needsBatteryUpdate := true }

/-- Function `handlePhysicalButtons()` (the screen-dependent `switch`), with
press edges passed in as booleans and `orientation` standing for the
`detectOrientation()` result at the press instant.  The touch dispatcher
`handleTouchButtons()` runs the identical `switch` on the same abstract
events, so this one definition embeds both.  The right-button long-press
machinery is not exercised by any claim and is modelled as `not held long`
(`btnCLongPressed = false`). -/
def handlePhysicalButtons (leftPressed centerPressed rightPressed : Bool)
    (orientation : Int) (s : CubeState) : CubeState :=
  match s.currentScreen with
  | SCREEN_SOUND_SELECT =>
    let s1 :=
      if leftPressed || rightPressed then
        { s with soundSelectPosition := if s.soundSelectPosition = 0 then 1 else 0 }
      else s
    if centerPressed then
      { s1 with soundEnabled := s1.soundSelectPosition = 0,
                currentScreen := SCREEN_MODE_SELECT, modeSelectPosition := 0,
                needsFullRedraw := true, needsBatteryUpdate := true }
    else s1
  | SCREEN_MODE_SELECT =>
    let s1 :=
      if leftPressed || rightPressed then
        { s with modeSelectPosition := if s.modeSelectPosition = 0 then 1 else 0 }
      else s
    if centerPressed then
      { s1 with currentTimerMode :=
                  if s1.modeSelectPosition = 0 then GAME_TIMER else MOVE_TIMER,
                currentScreen := SCREEN_SETUP, updatePosition := 0,
                needsFullRedraw := true, needsBatteryUpdate := true }
    else s1
  | SCREEN_SETUP =>
    let s1 := if leftPressed then incrementDigit s else s
    let s2 := if centerPressed then startTimerFromSetup orientation s1 else s1
    if rightPressed then nextDigitPosition s2 else s2
  | SCREEN_TIMER =>
    let s1 := if leftPressed ∧ !s.statusFlg then resetToSetup s else s
    if centerPressed then
      if !s1.statusFlg then resumeTimer orientation s1 else pauseTimer s1
    else s1

/-- Function `handleButtons()`: the wake-on-press guard followed by the
screen-dependent dispatch. -/
def handleButtons (leftPressed centerPressed rightPressed : Bool)
    (orientation : Int) (s : CubeState) : CubeState :=
  if !s.isDisplayOn ∧ (leftPressed || centerPressed || rightPressed) then
    { s with isDisplayOn := true, needsFullRedraw := true, needsBatteryUpdate := true }
  else
    handlePhysicalButtons leftPressed centerPressed rightPressed orientation s

/-- The face-change block at the head of the 1-second tick in `loop()`:
store the new face, mark redraws, emit the switch tone, and in Move-Timer
mode reload the shared countdown via `switchToNextPlayer()`. -/
def faceChangeStep (orientation : Int) (s : CubeState) : CubeState × List Tone :=
  if orientation ≥ 0 ∧ orientation ≠ s.currentFace then
    (if s.currentTimerMode = MOVE_TIMER then
       switchToNextPlayer { s with currentFace := orientation, needsFullRedraw := true,
                                   needsBatteryUpdate := true }
     else { s with currentFace := orientation, needsFullRedraw := true,
                   needsBatteryUpdate := true },
     if s.soundEnabled then [(TONE_FREQ_HIGH, TONE_DURATION_SHORT)] else [])
  else (s, [])

/-- The redraw block of the tick: a full redraw clears both dirty flags, a
partial update clears the battery flag when set; nothing is drawn while the
display is off or a warning tone is sounding. -/
def drawPhase (s : CubeState) : CubeState :=
  if s.isDisplayOn ∧ !s.isPlayingWarningSound then
    if s.needsFullRedraw then
      { s with needsFullRedraw := false, needsBatteryUpdate := false }
    else if s.needsBatteryUpdate then
      { s with needsBatteryUpdate := false }
    else s
  else s

/-- The display-wake block of the tick: recovering from the face-down pause
turns the display back on and forces a full redraw. -/
def wakeStep (s : CubeState) : CubeState :=
  if s.pauseFlg ∧ !s.isDisplayOn then
    { turnOnDisplay s with needsFullRedraw := true, needsBatteryUpdate := true }
  else s

/-- The mode dispatch of the tick: `updateGameTimer` in Game-Timer mode,
`updateMoveTimer` otherwise. -/
def modeUpdate (orientation : Int) (s : CubeState) : CubeState × List Tone :=
  if s.currentTimerMode = GAME_TIMER then updateGameTimer orientation s
  else updateMoveTimer orientation s

/-- The body of the 1-second timer tick in `loop()` (the block guarded by
`currentScreen == SCREEN_TIMER && statusFlg && interval elapsed`), with
`orientation` standing for the `detectOrientation()` result of the tick and
`accelZ` the current Z acceleration used by the face-down branch.  When the
classifier returns no face (`orientation < 0`), `faceChangeStep` is the
identity with no tones, so reading the pre-tick state through it below is
the same as reading it directly, as the source does. -/
def timerTickBody (orientation : Int) (accelZ : ℚ) (s : CubeState) :
    CubeState × List Tone :=
  if orientation ≥ 0 then
    ({ drawPhase (modeUpdate orientation
                    (wakeStep (faceChangeStep orientation s).1)).1 with
         pauseFlg := false },
     (faceChangeStep orientation s).2 ++
       (modeUpdate orientation (wakeStep (faceChangeStep orientation s).1)).2)
  else if accelZ ≤ ACCEL_THRESHOLD_BACK ∧ !(faceChangeStep orientation s).1.pauseFlg then
    ({ turnOffDisplay (faceChangeStep orientation s).1 with pauseFlg := true },
     (faceChangeStep orientation s).2 ++
       (if (faceChangeStep orientation s).1.soundEnabled then
          [(TONE_FREQ_MID, TONE_DURATION_WARNING)]
        else []))
  else ((faceChangeStep orientation s).1, (faceChangeStep orientation s).2)

/-- One 1-second tick of `loop()`, including its screen/running guard. -/
def loopTimerStep (orientation : Int) (accelZ : ℚ) (s : CubeState) :
    CubeState × List Tone :=
  if s.currentScreen = SCREEN_TIMER ∧ s.statusFlg then
    timerTickBody orientation accelZ s
  else (s, [])

/-- Iterate `n` 1-second ticks with a fixed classifier result, concatenating
the emitted tone events in order. -/
def runTicks (orientation : Int) (accelZ : ℚ) : Nat → CubeState → CubeState × List Tone
  | 0, s => (s, [])
  | n + 1, s =>
    let st := loopTimerStep orientation accelZ s
    let rest := runTicks orientation accelZ n st.1
    (rest.1, st.2 ++ rest.2)

/-- The boot-time values of the global variables. -/
def initialState : CubeState where
  currentScreen := SCREEN_SOUND_SELECT
  currentTimerMode := GAME_TIMER
  soundEnabled := true
  soundSelectPosition := 0
  modeSelectPosition := 0
  timeList := fun _ => 0
  negativeList := fun _ => 0
  moveTimeRemaining := 0
  currentFace := 4
  statusFlg := false
  startFlg := false
  pauseFlg := false
  updatePosition := 0
  dig01 := 0
  dig02 := 0
  dig03 := 0
  dig04 := 0
  initDig01 := 0
  initDig02 := 0
  initDig03 := 0
  initDig04 := 0
  moveTimerDig01 := 0
  moveTimerDig02 := 0
  moveTimerDig03 := 0
  moveTimerDig04 := 0
  blinkState := true
  warningPlayed := false
  needsFullRedraw := true
  needsBatteryUpdate := true
  isDisplayOn := true
  isPlayingWarningSound := false
  warning10secPlayed := fun _ => false
  warning5secPlayed := fun _ => false
  warning4secPlayed := fun _ => false
  warning3secPlayed := fun _ => false
  warning2secPlayed := fun _ => false
  warning1secPlayed := fun _ => false

/-- A running Game-Timer state whose active face 0 has 3 seconds left. -/
def sGame3 : CubeState :=
  { initialState with currentScreen := SCREEN_TIMER, statusFlg := true,
                      startFlg := true, currentFace := 0,
                      timeList := fun _ => 3 }

/-- A running Game-Timer state whose slots hold 10 seconds, with the setup
entry 00:10 committed (so a reset restores a 10-second countdown). -/
def sGame10 : CubeState :=
  { initialState with currentScreen := SCREEN_TIMER, statusFlg := true,
                      startFlg := true, currentFace := 0,
                      timeList := fun _ => 10,
                      initDig03 := 1 }

/-- The reset-and-restart input sequence from a running timer: Center
(pause), Left (back to Setup, restoring the committed digits), Center
(commit and start again), with the device lying on face 0. -/
def restartSeq (s : CubeState) : CubeState :=
  handleButtons false true false 0
    (handleButtons true false false 0 (handleButtons false true false 0 s))

/-- The tone list of one full 10-second countdown pass with sound on. -/
def expectedWarnTones : List Tone :=
  [(1800, 200), (1000, 200), (1000, 200), (1000, 200), (1000, 200), (1000, 200),
   (1000, 300)]

/-- A running Move-Timer state on face 0 with base 5 and 3 seconds left on
the shared countdown (2 ticks already spent). -/
def sMove53 : CubeState :=
  { initialState with currentScreen := SCREEN_TIMER, statusFlg := true,
                      startFlg := true, currentFace := 0,
                      currentTimerMode := MOVE_TIMER,
                      moveTimeRemaining := 3,
                      moveTimerDig04 := 5 }

/-- A running Move-Timer state whose shared countdown has expired. -/
def sMove0 : CubeState :=
  { initialState with currentScreen := SCREEN_TIMER, statusFlg := true,
                      startFlg := true, currentFace := 0,
                      currentTimerMode := MOVE_TIMER,
                      moveTimeRemaining := 0 }

/-- A Setup-screen state in Game-Timer mode with the digit entry 12:34. -/
def sSetup1234 : CubeState :=
  { initialState with currentScreen := SCREEN_SETUP,
                      dig01 := 1, dig02 := 2, dig03 := 3, dig04 := 4 }

/-- A running Timer-screen state whose display has been shut off by the
face-down pause. -/
def sRunningDisplayOff : CubeState :=
  { initialState with currentScreen := SCREEN_TIMER, statusFlg := true,
                      startFlg := true, isDisplayOn := false, pauseFlg := true }

/-- A running Timer-screen state with the display on. -/
def sRunningDisplayOn : CubeState :=
  { initialState with currentScreen := SCREEN_TIMER, statusFlg := true,
                      startFlg := true }

/-- A state whose game slots and move countdown are all expired. -/
def sExpired : CubeState :=
  { initialState with currentScreen := SCREEN_TIMER, statusFlg := true,
                      startFlg := true, currentFace := 0,
                      timeList := fun _ => 0, moveTimeRemaining := 0 }

/-- Nonnegativity invariant of the timer state: every slot of the bank, the
shared move countdown, and all digit registers that feed them are >= 0. -/
def Inv (s : CubeState) : Prop :=
  (∀ i : Fin 5, 0 ≤ s.timeList i) ∧ 0 ≤ s.moveTimeRemaining ∧
  0 ≤ s.dig01 ∧ 0 ≤ s.dig02 ∧ 0 ≤ s.dig03 ∧ 0 ≤ s.dig04 ∧
  0 ≤ s.initDig01 ∧ 0 ≤ s.initDig02 ∧ 0 ≤ s.initDig03 ∧ 0 ≤ s.initDig04 ∧
  0 ≤ s.moveTimerDig01 ∧ 0 ≤ s.moveTimerDig02 ∧ 0 ≤ s.moveTimerDig03 ∧
  0 ≤ s.moveTimerDig04

/-- C1 counterexample: from remaining = 3 on a fixed active face, the fourth
tick does display 00:00, but the overtime flag (the `negativeList` entry of
the active slot) is already 1 after that tick — the tick that displays
00:00 is the one that sets the flag, so it is not still false. -/
theorem C1_fourth_tick_flag_counterexample :
    displayOf (runTicks 0 0 4 sGame3).1 = "00:00" ∧
    ((runTicks 0 0 4 sGame3).1).negativeList 0 = 1 := by
  decide

/-- C1 (amended): in Game-Timer mode, from remaining = 3 on a face that
stays active while running, the six ticks display 00:03, 00:02, 00:01,
00:00, 00:01, 00:02; the overtime flag is still false after each of the
first three ticks, and the fourth tick — the one that displays 00:00 — sets
it, so overtime counting up begins with the fifth tick. -/
theorem C1_game_timer_tick_sequence :
    (displayOf (runTicks 0 0 1 sGame3).1 = "00:03" ∧
      ((runTicks 0 0 1 sGame3).1).negativeList 0 = 0) ∧
    (displayOf (runTicks 0 0 2 sGame3).1 = "00:02" ∧
      ((runTicks 0 0 2 sGame3).1).negativeList 0 = 0) ∧
    (displayOf (runTicks 0 0 3 sGame3).1 = "00:01" ∧
      ((runTicks 0 0 3 sGame3).1).negativeList 0 = 0) ∧
    (displayOf (runTicks 0 0 4 sGame3).1 = "00:00" ∧
      ((runTicks 0 0 4 sGame3).1).negativeList 0 = 1) ∧
    (displayOf (runTicks 0 0 5 sGame3).1 = "00:01" ∧
      ((runTicks 0 0 5 sGame3).1).negativeList 0 = 1) ∧
    (displayOf (runTicks 0 0 6 sGame3).1 = "00:02" ∧
      ((runTicks 0 0 6 sGame3).1).negativeList 0 = 1) := by
  decide

/-- C2: the orientation classifier returns the first matching face in the
priority order y at or above threshold, then x, then y at or below the
negated threshold, then x, then z at or above threshold, and returns -1
(None) when no condition holds; in particular a sample with both y and x at
or above the threshold classifies as face 0 (Y before X). -/
theorem C2_classifier_priority_order (t x y z : ℚ) :
    (y ≥ t → detectOrientation t x y z = 0) ∧
    (y < t → x ≥ t → detectOrientation t x y z = 1) ∧
    (y < t → x < t → y ≤ -t → detectOrientation t x y z = 2) ∧
    (y < t → x < t → -t < y → x ≤ -t → detectOrientation t x y z = 3) ∧
    (y < t → x < t → -t < y → -t < x → z ≥ t → detectOrientation t x y z = 4) ∧
    (y < t → x < t → -t < y → -t < x → z < t → detectOrientation t x y z = -1) ∧
    (y ≥ t → x ≥ t → detectOrientation t x y z = 0) := by
  unfold detectOrientation
  refine ⟨?_, ?_, ?_, ?_, ?_, ?_, ?_⟩ <;> intros <;> split_ifs <;>
    first
    | rfl
    | linarith

/-- Witness for C2 at the 0.9 threshold on a sample with both y and x above
threshold, classified as face 0. -/
theorem C2_classifier_priority_order_witness :
    (1 : ℚ) ≥ 9 / 10 ∧ detectOrientation (9 / 10) 1 1 0 = 0 :=
  ⟨by norm_num,
   (C2_classifier_priority_order (9 / 10) 1 1 0).2.2.2.2.2.2 (by norm_num) (by norm_num)⟩

/-- C4: with base 10 and sound enabled, a full countdown pass fires exactly
the seven tone events, in order: the mid 200ms tone at remaining 10 (on the
first tick), the low 200ms tone at each of remaining 5, 4, 3, 2, 1 (ticks
6 to 10), and the low 300ms expiry tone on the 0-transition tick (tick 11);
after the pause / back-to-setup / start reset sequence the repeated
countdown fires all seven again. -/
theorem C4_seven_warning_tones :
    (runTicks 0 0 11 sGame10).2 = expectedWarnTones ∧
    ((runTicks 0 0 1 sGame10).2).length = 1 ∧
    ((runTicks 0 0 5 sGame10).2).length = 1 ∧
    ((runTicks 0 0 6 sGame10).2).length = 2 ∧
    ((runTicks 0 0 7 sGame10).2).length = 3 ∧
    ((runTicks 0 0 8 sGame10).2).length = 4 ∧
    ((runTicks 0 0 9 sGame10).2).length = 5 ∧
    ((runTicks 0 0 10 sGame10).2).length = 6 ∧
    ((runTicks 0 0 11 sGame10).2).length = 7 ∧
    (runTicks 0 0 11 (restartSeq (runTicks 0 0 11 sGame10).1)).2 = expectedWarnTones := by
  decide

/-- C5 counterexample: with the timer running on the Timer screen but the
display shut off (reachable through the face-down pause), a Left press does
mutate the state: it turns the display back on, so the before and after
states are not bit-identical. -/
theorem C5_left_press_mutates_counterexample :
    sRunningDisplayOff.currentScreen = SCREEN_TIMER ∧
    sRunningDisplayOff.statusFlg = true ∧
    sRunningDisplayOff.isDisplayOn = false ∧
    (handleButtons true false false 0 sRunningDisplayOff).isDisplayOn = true := by
  decide

/-- C5 (amended): in the Timer screen with the timer running and the
display on, a Left press leaves the state completely unchanged — in
particular the slot bank (timeList / negativeList), the move countdown and
the screen / running / display / pause flags are bit-identical.  When the
display is off, the only effect of any press (including Left) is the wake
path that turns the display on. -/
theorem C5_left_press_noop_while_running (s : CubeState) (orientation : Int)
    (hscr : s.currentScreen = SCREEN_TIMER) (hrun : s.statusFlg = true)
    (hdisp : s.isDisplayOn = true) :
    handleButtons true false false orientation s = s := by
  simp [handleButtons, hdisp, handlePhysicalButtons, hscr, hrun]

/-- Witness for C5 (amended) on a concrete running state with the display
on. -/
theorem C5_left_press_noop_while_running_witness :
    handleButtons true false false 0 sRunningDisplayOn = sRunningDisplayOn :=
  C5_left_press_noop_while_running sRunningDisplayOn 0 rfl rfl rfl

/-- C8 counterexample: in Move-Timer mode an expired countdown replays the
low 300ms expiry tone on every tick spent at remaining 0 — two consecutive
ticks of the same expired countdown emit it twice, so it is not fired at
most once per expiry event. -/
theorem C8_move_expiry_tone_repeats_counterexample :
    sMove0.moveTimeRemaining = 0 ∧
    (runTicks 0 0 2 sMove0).2 = [(1000, 300), (1000, 300)] := by
  decide

/-- C9: starting the timer from the Setup screen with the digit entry 12:34
in Game-Timer mode initializes every one of the 5 player slots to
754 seconds (12 * 60 + 34) with every overtime flag cleared, and enters the
running Timer screen. -/
theorem C9_commit_1234_round_trip (orientation : Int) :
    (∀ i : Fin 5,
      (handleButtons false true false orientation sSetup1234).timeList i = 754 ∧
      (handleButtons false true false orientation sSetup1234).negativeList i = 0) ∧
    (handleButtons false true false orientation sSetup1234).currentScreen = SCREEN_TIMER ∧
    (handleButtons false true false orientation sSetup1234).statusFlg = true := by
  refine ⟨fun i => ⟨?_, ?_⟩, ?_, ?_⟩ <;>
    simp [handleButtons, sSetup1234, initialState, handlePhysicalButtons,
          startTimerFromSetup, initializeTimers, resetWarningFlags]


/-- Projection fact: `resetWarningFlags` leaves `timeList` unchanged. -/
@[simp] theorem resetWarningFlags_timeList (p : Int) (s : CubeState) :
    (resetWarningFlags p s).timeList = s.timeList := by
  unfold resetWarningFlags
  split
  · rfl
  · split <;> rfl

/-- Projection fact: `resetWarningFlags` leaves `negativeList` unchanged. -/
@[simp] theorem resetWarningFlags_negativeList (p : Int) (s : CubeState) :
    (resetWarningFlags p s).negativeList = s.negativeList := by
  unfold resetWarningFlags
  split
  · rfl
  · split <;> rfl

/-- Projection fact: `resetWarningFlags` leaves `moveTimeRemaining` unchanged. -/
@[simp] theorem resetWarningFlags_moveTimeRemaining (p : Int) (s : CubeState) :
    (resetWarningFlags p s).moveTimeRemaining = s.moveTimeRemaining := by
  unfold resetWarningFlags
  split
  · rfl
  · split <;> rfl

/-- Projection fact: `resetWarningFlags` leaves `dig01` unchanged. -/
@[simp] theorem resetWarningFlags_dig01 (p : Int) (s : CubeState) :
    (resetWarningFlags p s).dig01 = s.dig01 := by
  unfold resetWarningFlags
  split
  · rfl
  · split <;> rfl

/-- Projection fact: `resetWarningFlags` leaves `dig02` unchanged. -/
@[simp] theorem resetWarningFlags_dig02 (p : Int) (s : CubeState) :
    (resetWarningFlags p s).dig02 = s.dig02 := by
  unfold resetWarningFlags
  split
  · rfl
  · split <;> rfl

/-- Projection fact: `resetWarningFlags` leaves `dig03` unchanged. -/
@[simp] theorem resetWarningFlags_dig03 (p : Int) (s : CubeState) :
    (resetWarningFlags p s).dig03 = s.dig03 := by
  unfold resetWarningFlags
  split
  · rfl
  · split <;> rfl

/-- Projection fact: `resetWarningFlags` leaves `dig04` unchanged. -/
@[simp] theorem resetWarningFlags_dig04 (p : Int) (s : CubeState) :
    (resetWarningFlags p s).dig04 = s.dig04 := by
  unfold resetWarningFlags
  split
  · rfl
  · split <;> rfl

/-- Projection fact: `resetWarningFlags` leaves `initDig01` unchanged. -/
@[simp] theorem resetWarningFlags_initDig01 (p : Int) (s : CubeState) :
    (resetWarningFlags p s).initDig01 = s.initDig01 := by
  unfold resetWarningFlags
  split
  · rfl
  · split <;> rfl

/-- Projection fact: `resetWarningFlags` leaves `initDig02` unchanged. -/
@[simp] theorem resetWarningFlags_initDig02 (p : Int) (s : CubeState) :
    (resetWarningFlags p s).initDig02 = s.initDig02 := by
  unfold resetWarningFlags
  split
  · rfl
  · split <;> rfl

/-- Projection fact: `resetWarningFlags` leaves `initDig03` unchanged. -/
@[simp] theorem resetWarningFlags_initDig03 (p : Int) (s : CubeState) :
    (resetWarningFlags p s).initDig03 = s.initDig03 := by
  unfold resetWarningFlags
  split
  · rfl
  · split <;> rfl

/-- Projection fact: `resetWarningFlags` leaves `initDig04` unchanged. -/
@[simp] theorem resetWarningFlags_initDig04 (p : Int) (s : CubeState) :
    (resetWarningFlags p s).initDig04 = s.initDig04 := by
  unfold resetWarningFlags
  split
  · rfl
  · split <;> rfl

/-- Projection fact: `resetWarningFlags` leaves `moveTimerDig01` unchanged. -/
@[simp] theorem resetWarningFlags_moveTimerDig01 (p : Int) (s : CubeState) :
    (resetWarningFlags p s).moveTimerDig01 = s.moveTimerDig01 := by
  unfold resetWarningFlags
  split
  · rfl
  · split <;> rfl

/-- Projection fact: `resetWarningFlags` leaves `moveTimerDig02` unchanged. -/
@[simp] theorem resetWarningFlags_moveTimerDig02 (p : Int) (s : CubeState) :
    (resetWarningFlags p s).moveTimerDig02 = s.moveTimerDig02 := by
  unfold resetWarningFlags
  split
  · rfl
  · split <;> rfl

/-- Projection fact: `resetWarningFlags` leaves `moveTimerDig03` unchanged. -/
@[simp] theorem resetWarningFlags_moveTimerDig03 (p : Int) (s : CubeState) :
    (resetWarningFlags p s).moveTimerDig03 = s.moveTimerDig03 := by
  unfold resetWarningFlags
  split
  · rfl
  · split <;> rfl

/-- Projection fact: `resetWarningFlags` leaves `moveTimerDig04` unchanged. -/
@[simp] theorem resetWarningFlags_moveTimerDig04 (p : Int) (s : CubeState) :
    (resetWarningFlags p s).moveTimerDig04 = s.moveTimerDig04 := by
  unfold resetWarningFlags
  split
  · rfl
  · split <;> rfl

/-- Projection fact: `resetWarningFlags` leaves `currentFace` unchanged. -/
@[simp] theorem resetWarningFlags_currentFace (p : Int) (s : CubeState) :
    (resetWarningFlags p s).currentFace = s.currentFace := by
  unfold resetWarningFlags
  split
  · rfl
  · split <;> rfl

/-- Projection fact: `resetWarningFlags` leaves `currentScreen` unchanged. -/
@[simp] theorem resetWarningFlags_currentScreen (p : Int) (s : CubeState) :
    (resetWarningFlags p s).currentScreen = s.currentScreen := by
  unfold resetWarningFlags
  split
  · rfl
  · split <;> rfl

/-- Projection fact: `resetWarningFlags` leaves `currentTimerMode` unchanged. -/
@[simp] theorem resetWarningFlags_currentTimerMode (p : Int) (s : CubeState) :
    (resetWarningFlags p s).currentTimerMode = s.currentTimerMode := by
  unfold resetWarningFlags
  split
  · rfl
  · split <;> rfl

/-- Projection fact: `resetWarningFlags` leaves `statusFlg` unchanged. -/
@[simp] theorem resetWarningFlags_statusFlg (p : Int) (s : CubeState) :
    (resetWarningFlags p s).statusFlg = s.statusFlg := by
  unfold resetWarningFlags
  split
  · rfl
  · split <;> rfl

/-- Projection fact: `resetWarningFlags` leaves `soundEnabled` unchanged. -/
@[simp] theorem resetWarningFlags_soundEnabled (p : Int) (s : CubeState) :
    (resetWarningFlags p s).soundEnabled = s.soundEnabled := by
  unfold resetWarningFlags
  split
  · rfl
  · split <;> rfl

/-- Projection fact: `checkTimeWarnings` leaves `timeList` unchanged. -/
@[simp] theorem checkTimeWarnings_timeList (r p : Int) (s : CubeState) :
    ((checkTimeWarnings r p s).1).timeList = s.timeList := by
  unfold checkTimeWarnings setWarnFlag
  split
  · rfl
  · split_ifs <;> rfl

/-- Projection fact: `checkTimeWarnings` leaves `negativeList` unchanged. -/
@[simp] theorem checkTimeWarnings_negativeList (r p : Int) (s : CubeState) :
    ((checkTimeWarnings r p s).1).negativeList = s.negativeList := by
  unfold checkTimeWarnings setWarnFlag
  split
  · rfl
  · split_ifs <;> rfl

/-- Projection fact: `checkTimeWarnings` leaves `moveTimeRemaining` unchanged. -/
@[simp] theorem checkTimeWarnings_moveTimeRemaining (r p : Int) (s : CubeState) :
    ((checkTimeWarnings r p s).1).moveTimeRemaining = s.moveTimeRemaining := by
  unfold checkTimeWarnings setWarnFlag
  split
  · rfl
  · split_ifs <;> rfl

/-- Projection fact: `checkTimeWarnings` leaves `dig01` unchanged. -/
@[simp] theorem checkTimeWarnings_dig01 (r p : Int) (s : CubeState) :
    ((checkTimeWarnings r p s).1).dig01 = s.dig01 := by
  unfold checkTimeWarnings setWarnFlag
  split
  · rfl
  · split_ifs <;> rfl

/-- Projection fact: `checkTimeWarnings` leaves `dig02` unchanged. -/
@[simp] theorem checkTimeWarnings_dig02 (r p : Int) (s : CubeState) :
    ((checkTimeWarnings r p s).1).dig02 = s.dig02 := by
  unfold checkTimeWarnings setWarnFlag
  split
  · rfl
  · split_ifs <;> rfl

/-- Projection fact: `checkTimeWarnings` leaves `dig03` unchanged. -/
@[simp] theorem checkTimeWarnings_dig03 (r p : Int) (s : CubeState) :
    ((checkTimeWarnings r p s).1).dig03 = s.dig03 := by
  unfold checkTimeWarnings setWarnFlag
  split
  · rfl
  · split_ifs <;> rfl

/-- Projection fact: `checkTimeWarnings` leaves `dig04` unchanged. -/
@[simp] theorem checkTimeWarnings_dig04 (r p : Int) (s : CubeState) :
    ((checkTimeWarnings r p s).1).dig04 = s.dig04 := by
  unfold checkTimeWarnings setWarnFlag
  split
  · rfl
  · split_ifs <;> rfl

/-- Projection fact: `checkTimeWarnings` leaves `initDig01` unchanged. -/
@[simp] theorem checkTimeWarnings_initDig01 (r p : Int) (s : CubeState) :
    ((checkTimeWarnings r p s).1).initDig01 = s.initDig01 := by
  unfold checkTimeWarnings setWarnFlag
  split
  · rfl
  · split_ifs <;> rfl

/-- Projection fact: `checkTimeWarnings` leaves `initDig02` unchanged. -/
@[simp] theorem checkTimeWarnings_initDig02 (r p : Int) (s : CubeState) :
    ((checkTimeWarnings r p s).1).initDig02 = s.initDig02 := by
  unfold checkTimeWarnings setWarnFlag
  split
  · rfl
  · split_ifs <;> rfl

/-- Projection fact: `checkTimeWarnings` leaves `initDig03` unchanged. -/
@[simp] theorem checkTimeWarnings_initDig03 (r p : Int) (s : CubeState) :
    ((checkTimeWarnings r p s).1).initDig03 = s.initDig03 := by
  unfold checkTimeWarnings setWarnFlag
  split
  · rfl
  · split_ifs <;> rfl

/-- Projection fact: `checkTimeWarnings` leaves `initDig04` unchanged. -/
@[simp] theorem checkTimeWarnings_initDig04 (r p : Int) (s : CubeState) :
    ((checkTimeWarnings r p s).1).initDig04 = s.initDig04 := by
  unfold checkTimeWarnings setWarnFlag
  split
  · rfl
  · split_ifs <;> rfl

/-- Projection fact: `checkTimeWarnings` leaves `moveTimerDig01` unchanged. -/
@[simp] theorem checkTimeWarnings_moveTimerDig01 (r p : Int) (s : CubeState) :
    ((checkTimeWarnings r p s).1).moveTimerDig01 = s.moveTimerDig01 := by
  unfold checkTimeWarnings setWarnFlag
  split
  · rfl
  · split_ifs <;> rfl

/-- Projection fact: `checkTimeWarnings` leaves `moveTimerDig02` unchanged. -/
@[simp] theorem checkTimeWarnings_moveTimerDig02 (r p : Int) (s : CubeState) :
    ((checkTimeWarnings r p s).1).moveTimerDig02 = s.moveTimerDig02 := by
  unfold checkTimeWarnings setWarnFlag
  split
  · rfl
  · split_ifs <;> rfl

/-- Projection fact: `checkTimeWarnings` leaves `moveTimerDig03` unchanged. -/
@[simp] theorem checkTimeWarnings_moveTimerDig03 (r p : Int) (s : CubeState) :
    ((checkTimeWarnings r p s).1).moveTimerDig03 = s.moveTimerDig03 := by
  unfold checkTimeWarnings setWarnFlag
  split
  · rfl
  · split_ifs <;> rfl

/-- Projection fact: `checkTimeWarnings` leaves `moveTimerDig04` unchanged. -/
@[simp] theorem checkTimeWarnings_moveTimerDig04 (r p : Int) (s : CubeState) :
    ((checkTimeWarnings r p s).1).moveTimerDig04 = s.moveTimerDig04 := by
  unfold checkTimeWarnings setWarnFlag
  split
  · rfl
  · split_ifs <;> rfl

/-- Projection fact: `checkTimeWarnings` leaves `currentFace` unchanged. -/
@[simp] theorem checkTimeWarnings_currentFace (r p : Int) (s : CubeState) :
    ((checkTimeWarnings r p s).1).currentFace = s.currentFace := by
  unfold checkTimeWarnings setWarnFlag
  split
  · rfl
  · split_ifs <;> rfl

/-- Projection fact: `checkTimeWarnings` leaves `currentScreen` unchanged. -/
@[simp] theorem checkTimeWarnings_currentScreen (r p : Int) (s : CubeState) :
    ((checkTimeWarnings r p s).1).currentScreen = s.currentScreen := by
  unfold checkTimeWarnings setWarnFlag
  split
  · rfl
  · split_ifs <;> rfl

/-- Projection fact: `checkTimeWarnings` leaves `currentTimerMode` unchanged. -/
@[simp] theorem checkTimeWarnings_currentTimerMode (r p : Int) (s : CubeState) :
    ((checkTimeWarnings r p s).1).currentTimerMode = s.currentTimerMode := by
  unfold checkTimeWarnings setWarnFlag
  split
  · rfl
  · split_ifs <;> rfl

/-- Projection fact: `checkTimeWarnings` leaves `statusFlg` unchanged. -/
@[simp] theorem checkTimeWarnings_statusFlg (r p : Int) (s : CubeState) :
    ((checkTimeWarnings r p s).1).statusFlg = s.statusFlg := by
  unfold checkTimeWarnings setWarnFlag
  split
  · rfl
  · split_ifs <;> rfl

/-- Projection fact: `checkTimeWarnings` leaves `soundEnabled` unchanged. -/
@[simp] theorem checkTimeWarnings_soundEnabled (r p : Int) (s : CubeState) :
    ((checkTimeWarnings r p s).1).soundEnabled = s.soundEnabled := by
  unfold checkTimeWarnings setWarnFlag
  split
  · rfl
  · split_ifs <;> rfl

/-- Projection fact: `drawPhase` leaves `timeList` unchanged. -/
@[simp] theorem drawPhase_timeList (s : CubeState) :
    (drawPhase s).timeList = s.timeList := by
  unfold drawPhase
  split_ifs <;> rfl

/-- Projection fact: `drawPhase` leaves `negativeList` unchanged. -/
@[simp] theorem drawPhase_negativeList (s : CubeState) :
    (drawPhase s).negativeList = s.negativeList := by
  unfold drawPhase
  split_ifs <;> rfl

/-- Projection fact: `drawPhase` leaves `moveTimeRemaining` unchanged. -/
@[simp] theorem drawPhase_moveTimeRemaining (s : CubeState) :
    (drawPhase s).moveTimeRemaining = s.moveTimeRemaining := by
  unfold drawPhase
  split_ifs <;> rfl

/-- Projection fact: `drawPhase` leaves `dig01` unchanged. -/
@[simp] theorem drawPhase_dig01 (s : CubeState) :
    (drawPhase s).dig01 = s.dig01 := by
  unfold drawPhase
  split_ifs <;> rfl

/-- Projection fact: `drawPhase` leaves `dig02` unchanged. -/
@[simp] theorem drawPhase_dig02 (s : CubeState) :
    (drawPhase s).dig02 = s.dig02 := by
  unfold drawPhase
  split_ifs <;> rfl

/-- Projection fact: `drawPhase` leaves `dig03` unchanged. -/
@[simp] theorem drawPhase_dig03 (s : CubeState) :
    (drawPhase s).dig03 = s.dig03 := by
  unfold drawPhase
  split_ifs <;> rfl

/-- Projection fact: `drawPhase` leaves `dig04` unchanged. -/
@[simp] theorem drawPhase_dig04 (s : CubeState) :
    (drawPhase s).dig04 = s.dig04 := by
  unfold drawPhase
  split_ifs <;> rfl

/-- Projection fact: `drawPhase` leaves `initDig01` unchanged. -/
@[simp] theorem drawPhase_initDig01 (s : CubeState) :
    (drawPhase s).initDig01 = s.initDig01 := by
  unfold drawPhase
  split_ifs <;> rfl

/-- Projection fact: `drawPhase` leaves `initDig02` unchanged. -/
@[simp] theorem drawPhase_initDig02 (s : CubeState) :
    (drawPhase s).initDig02 = s.initDig02 := by
  unfold drawPhase
  split_ifs <;> rfl

/-- Projection fact: `drawPhase` leaves `initDig03` unchanged. -/
@[simp] theorem drawPhase_initDig03 (s : CubeState) :
    (drawPhase s).initDig03 = s.initDig03 := by
  unfold drawPhase
  split_ifs <;> rfl

/-- Projection fact: `drawPhase` leaves `initDig04` unchanged. -/
@[simp] theorem drawPhase_initDig04 (s : CubeState) :
    (drawPhase s).initDig04 = s.initDig04 := by
  unfold drawPhase
  split_ifs <;> rfl

/-- Projection fact: `drawPhase` leaves `moveTimerDig01` unchanged. -/
@[simp] theorem drawPhase_moveTimerDig01 (s : CubeState) :
    (drawPhase s).moveTimerDig01 = s.moveTimerDig01 := by
  unfold drawPhase
  split_ifs <;> rfl

/-- Projection fact: `drawPhase` leaves `moveTimerDig02` unchanged. -/
@[simp] theorem drawPhase_moveTimerDig02 (s : CubeState) :
    (drawPhase s).moveTimerDig02 = s.moveTimerDig02 := by
  unfold drawPhase
  split_ifs <;> rfl

/-- Projection fact: `drawPhase` leaves `moveTimerDig03` unchanged. -/
@[simp] theorem drawPhase_moveTimerDig03 (s : CubeState) :
    (drawPhase s).moveTimerDig03 = s.moveTimerDig03 := by
  unfold drawPhase
  split_ifs <;> rfl

/-- Projection fact: `drawPhase` leaves `moveTimerDig04` unchanged. -/
@[simp] theorem drawPhase_moveTimerDig04 (s : CubeState) :
    (drawPhase s).moveTimerDig04 = s.moveTimerDig04 := by
  unfold drawPhase
  split_ifs <;> rfl

/-- Projection fact: `drawPhase` leaves `currentFace` unchanged. -/
@[simp] theorem drawPhase_currentFace (s : CubeState) :
    (drawPhase s).currentFace = s.currentFace := by
  unfold drawPhase
  split_ifs <;> rfl

/-- Projection fact: `drawPhase` leaves `currentScreen` unchanged. -/
@[simp] theorem drawPhase_currentScreen (s : CubeState) :
    (drawPhase s).currentScreen = s.currentScreen := by
  unfold drawPhase
  split_ifs <;> rfl

/-- Projection fact: `drawPhase` leaves `currentTimerMode` unchanged. -/
@[simp] theorem drawPhase_currentTimerMode (s : CubeState) :
    (drawPhase s).currentTimerMode = s.currentTimerMode := by
  unfold drawPhase
  split_ifs <;> rfl

/-- Projection fact: `drawPhase` leaves `statusFlg` unchanged. -/
@[simp] theorem drawPhase_statusFlg (s : CubeState) :
    (drawPhase s).statusFlg = s.statusFlg := by
  unfold drawPhase
  split_ifs <;> rfl

/-- Projection fact: `drawPhase` leaves `soundEnabled` unchanged. -/
@[simp] theorem drawPhase_soundEnabled (s : CubeState) :
    (drawPhase s).soundEnabled = s.soundEnabled := by
  unfold drawPhase
  split_ifs <;> rfl

/-- Projection fact: `turnOnDisplay` leaves `timeList` unchanged. -/
@[simp] theorem turnOnDisplay_timeList (s : CubeState) :
    (turnOnDisplay s).timeList = s.timeList := by
  unfold turnOnDisplay
  split_ifs <;> rfl

/-- Projection fact: `turnOnDisplay` leaves `negativeList` unchanged. -/
@[simp] theorem turnOnDisplay_negativeList (s : CubeState) :
    (turnOnDisplay s).negativeList = s.negativeList := by
  unfold turnOnDisplay
  split_ifs <;> rfl

/-- Projection fact: `turnOnDisplay` leaves `moveTimeRemaining` unchanged. -/
@[simp] theorem turnOnDisplay_moveTimeRemaining (s : CubeState) :
    (turnOnDisplay s).moveTimeRemaining = s.moveTimeRemaining := by
  unfold turnOnDisplay
  split_ifs <;> rfl

/-- Projection fact: `turnOnDisplay` leaves `dig01` unchanged. -/
@[simp] theorem turnOnDisplay_dig01 (s : CubeState) :
    (turnOnDisplay s).dig01 = s.dig01 := by
  unfold turnOnDisplay
  split_ifs <;> rfl

/-- Projection fact: `turnOnDisplay` leaves `dig02` unchanged. -/
@[simp] theorem turnOnDisplay_dig02 (s : CubeState) :
    (turnOnDisplay s).dig02 = s.dig02 := by
  unfold turnOnDisplay
  split_ifs <;> rfl

/-- Projection fact: `turnOnDisplay` leaves `dig03` unchanged. -/
@[simp] theorem turnOnDisplay_dig03 (s : CubeState) :
    (turnOnDisplay s).dig03 = s.dig03 := by
  unfold turnOnDisplay
  split_ifs <;> rfl

/-- Projection fact: `turnOnDisplay` leaves `dig04` unchanged. -/
@[simp] theorem turnOnDisplay_dig04 (s : CubeState) :
    (turnOnDisplay s).dig04 = s.dig04 := by
  unfold turnOnDisplay
  split_ifs <;> rfl

/-- Projection fact: `turnOnDisplay` leaves `initDig01` unchanged. -/
@[simp] theorem turnOnDisplay_initDig01 (s : CubeState) :
    (turnOnDisplay s).initDig01 = s.initDig01 := by
  unfold turnOnDisplay
  split_ifs <;> rfl

/-- Projection fact: `turnOnDisplay` leaves `initDig02` unchanged. -/
@[simp] theorem turnOnDisplay_initDig02 (s : CubeState) :
    (turnOnDisplay s).initDig02 = s.initDig02 := by
  unfold turnOnDisplay
  split_ifs <;> rfl

/-- Projection fact: `turnOnDisplay` leaves `initDig03` unchanged. -/
@[simp] theorem turnOnDisplay_initDig03 (s : CubeState) :
    (turnOnDisplay s).initDig03 = s.initDig03 := by
  unfold turnOnDisplay
  split_ifs <;> rfl

/-- Projection fact: `turnOnDisplay` leaves `initDig04` unchanged. -/
@[simp] theorem turnOnDisplay_initDig04 (s : CubeState) :
    (turnOnDisplay s).initDig04 = s.initDig04 := by
  unfold turnOnDisplay
  split_ifs <;> rfl

/-- Projection fact: `turnOnDisplay` leaves `moveTimerDig01` unchanged. -/
@[simp] theorem turnOnDisplay_moveTimerDig01 (s : CubeState) :
    (turnOnDisplay s).moveTimerDig01 = s.moveTimerDig01 := by
  unfold turnOnDisplay
  split_ifs <;> rfl

/-- Projection fact: `turnOnDisplay` leaves `moveTimerDig02` unchanged. -/
@[simp] theorem turnOnDisplay_moveTimerDig02 (s : CubeState) :
    (turnOnDisplay s).moveTimerDig02 = s.moveTimerDig02 := by
  unfold turnOnDisplay
  split_ifs <;> rfl

/-- Projection fact: `turnOnDisplay` leaves `moveTimerDig03` unchanged. -/
@[simp] theorem turnOnDisplay_moveTimerDig03 (s : CubeState) :
    (turnOnDisplay s).moveTimerDig03 = s.moveTimerDig03 := by
  unfold turnOnDisplay
  split_ifs <;> rfl

/-- Projection fact: `turnOnDisplay` leaves `moveTimerDig04` unchanged. -/
@[simp] theorem turnOnDisplay_moveTimerDig04 (s : CubeState) :
    (turnOnDisplay s).moveTimerDig04 = s.moveTimerDig04 := by
  unfold turnOnDisplay
  split_ifs <;> rfl

/-- Projection fact: `turnOnDisplay` leaves `currentFace` unchanged. -/
@[simp] theorem turnOnDisplay_currentFace (s : CubeState) :
    (turnOnDisplay s).currentFace = s.currentFace := by
  unfold turnOnDisplay
  split_ifs <;> rfl

/-- Projection fact: `turnOnDisplay` leaves `currentScreen` unchanged. -/
@[simp] theorem turnOnDisplay_currentScreen (s : CubeState) :
    (turnOnDisplay s).currentScreen = s.currentScreen := by
  unfold turnOnDisplay
  split_ifs <;> rfl

/-- Projection fact: `turnOnDisplay` leaves `currentTimerMode` unchanged. -/
@[simp] theorem turnOnDisplay_currentTimerMode (s : CubeState) :
    (turnOnDisplay s).currentTimerMode = s.currentTimerMode := by
  unfold turnOnDisplay
  split_ifs <;> rfl

/-- Projection fact: `turnOnDisplay` leaves `statusFlg` unchanged. -/
@[simp] theorem turnOnDisplay_statusFlg (s : CubeState) :
    (turnOnDisplay s).statusFlg = s.statusFlg := by
  unfold turnOnDisplay
  split_ifs <;> rfl

/-- Projection fact: `turnOnDisplay` leaves `soundEnabled` unchanged. -/
@[simp] theorem turnOnDisplay_soundEnabled (s : CubeState) :
    (turnOnDisplay s).soundEnabled = s.soundEnabled := by
  unfold turnOnDisplay
  split_ifs <;> rfl

/-- Projection fact: `turnOffDisplay` leaves `timeList` unchanged. -/
@[simp] theorem turnOffDisplay_timeList (s : CubeState) :
    (turnOffDisplay s).timeList = s.timeList := by
  unfold turnOffDisplay
  split_ifs <;> rfl

/-- Projection fact: `turnOffDisplay` leaves `negativeList` unchanged. -/
@[simp] theorem turnOffDisplay_negativeList (s : CubeState) :
    (turnOffDisplay s).negativeList = s.negativeList := by
  unfold turnOffDisplay
  split_ifs <;> rfl

/-- Projection fact: `turnOffDisplay` leaves `moveTimeRemaining` unchanged. -/
@[simp] theorem turnOffDisplay_moveTimeRemaining (s : CubeState) :
    (turnOffDisplay s).moveTimeRemaining = s.moveTimeRemaining := by
  unfold turnOffDisplay
  split_ifs <;> rfl

/-- Projection fact: `turnOffDisplay` leaves `dig01` unchanged. -/
@[simp] theorem turnOffDisplay_dig01 (s : CubeState) :
    (turnOffDisplay s).dig01 = s.dig01 := by
  unfold turnOffDisplay
  split_ifs <;> rfl

/-- Projection fact: `turnOffDisplay` leaves `dig02` unchanged. -/
@[simp] theorem turnOffDisplay_dig02 (s : CubeState) :
    (turnOffDisplay s).dig02 = s.dig02 := by
  unfold turnOffDisplay
  split_ifs <;> rfl

/-- Projection fact: `turnOffDisplay` leaves `dig03` unchanged. -/
@[simp] theorem turnOffDisplay_dig03 (s : CubeState) :
    (turnOffDisplay s).dig03 = s.dig03 := by
  unfold turnOffDisplay
  split_ifs <;> rfl

/-- Projection fact: `turnOffDisplay` leaves `dig04` unchanged. -/
@[simp] theorem turnOffDisplay_dig04 (s : CubeState) :
    (turnOffDisplay s).dig04 = s.dig04 := by
  unfold turnOffDisplay
  split_ifs <;> rfl

/-- Projection fact: `turnOffDisplay` leaves `initDig01` unchanged. -/
@[simp] theorem turnOffDisplay_initDig01 (s : CubeState) :
    (turnOffDisplay s).initDig01 = s.initDig01 := by
  unfold turnOffDisplay
  split_ifs <;> rfl

/-- Projection fact: `turnOffDisplay` leaves `initDig02` unchanged. -/
@[simp] theorem turnOffDisplay_initDig02 (s : CubeState) :
    (turnOffDisplay s).initDig02 = s.initDig02 := by
  unfold turnOffDisplay
  split_ifs <;> rfl

/-- Projection fact: `turnOffDisplay` leaves `initDig03` unchanged. -/
@[simp] theorem turnOffDisplay_initDig03 (s : CubeState) :
    (turnOffDisplay s).initDig03 = s.initDig03 := by
  unfold turnOffDisplay
  split_ifs <;> rfl

/-- Projection fact: `turnOffDisplay` leaves `initDig04` unchanged. -/
@[simp] theorem turnOffDisplay_initDig04 (s : CubeState) :
    (turnOffDisplay s).initDig04 = s.initDig04 := by
  unfold turnOffDisplay
  split_ifs <;> rfl

/-- Projection fact: `turnOffDisplay` leaves `moveTimerDig01` unchanged. -/
@[simp] theorem turnOffDisplay_moveTimerDig01 (s : CubeState) :
    (turnOffDisplay s).moveTimerDig01 = s.moveTimerDig01 := by
  unfold turnOffDisplay
  split_ifs <;> rfl

/-- Projection fact: `turnOffDisplay` leaves `moveTimerDig02` unchanged. -/
@[simp] theorem turnOffDisplay_moveTimerDig02 (s : CubeState) :
    (turnOffDisplay s).moveTimerDig02 = s.moveTimerDig02 := by
  unfold turnOffDisplay
  split_ifs <;> rfl

/-- Projection fact: `turnOffDisplay` leaves `moveTimerDig03` unchanged. -/
@[simp] theorem turnOffDisplay_moveTimerDig03 (s : CubeState) :
    (turnOffDisplay s).moveTimerDig03 = s.moveTimerDig03 := by
  unfold turnOffDisplay
  split_ifs <;> rfl

/-- Projection fact: `turnOffDisplay` leaves `moveTimerDig04` unchanged. -/
@[simp] theorem turnOffDisplay_moveTimerDig04 (s : CubeState) :
    (turnOffDisplay s).moveTimerDig04 = s.moveTimerDig04 := by
  unfold turnOffDisplay
  split_ifs <;> rfl

/-- Projection fact: `turnOffDisplay` leaves `currentFace` unchanged. -/
@[simp] theorem turnOffDisplay_currentFace (s : CubeState) :
    (turnOffDisplay s).currentFace = s.currentFace := by
  unfold turnOffDisplay
  split_ifs <;> rfl

/-- Projection fact: `turnOffDisplay` leaves `currentScreen` unchanged. -/
@[simp] theorem turnOffDisplay_currentScreen (s : CubeState) :
    (turnOffDisplay s).currentScreen = s.currentScreen := by
  unfold turnOffDisplay
  split_ifs <;> rfl

/-- Projection fact: `turnOffDisplay` leaves `currentTimerMode` unchanged. -/
@[simp] theorem turnOffDisplay_currentTimerMode (s : CubeState) :
    (turnOffDisplay s).currentTimerMode = s.currentTimerMode := by
  unfold turnOffDisplay
  split_ifs <;> rfl

/-- Projection fact: `turnOffDisplay` leaves `statusFlg` unchanged. -/
@[simp] theorem turnOffDisplay_statusFlg (s : CubeState) :
    (turnOffDisplay s).statusFlg = s.statusFlg := by
  unfold turnOffDisplay
  split_ifs <;> rfl

/-- Projection fact: `turnOffDisplay` leaves `soundEnabled` unchanged. -/
@[simp] theorem turnOffDisplay_soundEnabled (s : CubeState) :
    (turnOffDisplay s).soundEnabled = s.soundEnabled := by
  unfold turnOffDisplay
  split_ifs <;> rfl

/-- Projection fact: `wakeStep` leaves `timeList` unchanged. -/
@[simp] theorem wakeStep_timeList (s : CubeState) :
    (wakeStep s).timeList = s.timeList := by
  unfold wakeStep turnOnDisplay
  split_ifs <;> rfl

/-- Projection fact: `wakeStep` leaves `negativeList` unchanged. -/
@[simp] theorem wakeStep_negativeList (s : CubeState) :
    (wakeStep s).negativeList = s.negativeList := by
  unfold wakeStep turnOnDisplay
  split_ifs <;> rfl

/-- Projection fact: `wakeStep` leaves `moveTimeRemaining` unchanged. -/
@[simp] theorem wakeStep_moveTimeRemaining (s : CubeState) :
    (wakeStep s).moveTimeRemaining = s.moveTimeRemaining := by
  unfold wakeStep turnOnDisplay
  split_ifs <;> rfl

/-- Projection fact: `wakeStep` leaves `dig01` unchanged. -/
@[simp] theorem wakeStep_dig01 (s : CubeState) :
    (wakeStep s).dig01 = s.dig01 := by
  unfold wakeStep turnOnDisplay
  split_ifs <;> rfl

/-- Projection fact: `wakeStep` leaves `dig02` unchanged. -/
@[simp] theorem wakeStep_dig02 (s : CubeState) :
    (wakeStep s).dig02 = s.dig02 := by
  unfold wakeStep turnOnDisplay
  split_ifs <;> rfl

/-- Projection fact: `wakeStep` leaves `dig03` unchanged. -/
@[simp] theorem wakeStep_dig03 (s : CubeState) :
    (wakeStep s).dig03 = s.dig03 := by
  unfold wakeStep turnOnDisplay
  split_ifs <;> rfl

/-- Projection fact: `wakeStep` leaves `dig04` unchanged. -/
@[simp] theorem wakeStep_dig04 (s : CubeState) :
    (wakeStep s).dig04 = s.dig04 := by
  unfold wakeStep turnOnDisplay
  split_ifs <;> rfl

/-- Projection fact: `wakeStep` leaves `initDig01` unchanged. -/
@[simp] theorem wakeStep_initDig01 (s : CubeState) :
    (wakeStep s).initDig01 = s.initDig01 := by
  unfold wakeStep turnOnDisplay
  split_ifs <;> rfl

/-- Projection fact: `wakeStep` leaves `initDig02` unchanged. -/
@[simp] theorem wakeStep_initDig02 (s : CubeState) :
    (wakeStep s).initDig02 = s.initDig02 := by
  unfold wakeStep turnOnDisplay
  split_ifs <;> rfl

/-- Projection fact: `wakeStep` leaves `initDig03` unchanged. -/
@[simp] theorem wakeStep_initDig03 (s : CubeState) :
    (wakeStep s).initDig03 = s.initDig03 := by
  unfold wakeStep turnOnDisplay
  split_ifs <;> rfl

/-- Projection fact: `wakeStep` leaves `initDig04` unchanged. -/
@[simp] theorem wakeStep_initDig04 (s : CubeState) :
    (wakeStep s).initDig04 = s.initDig04 := by
  unfold wakeStep turnOnDisplay
  split_ifs <;> rfl

/-- Projection fact: `wakeStep` leaves `moveTimerDig01` unchanged. -/
@[simp] theorem wakeStep_moveTimerDig01 (s : CubeState) :
    (wakeStep s).moveTimerDig01 = s.moveTimerDig01 := by
  unfold wakeStep turnOnDisplay
  split_ifs <;> rfl

/-- Projection fact: `wakeStep` leaves `moveTimerDig02` unchanged. -/
@[simp] theorem wakeStep_moveTimerDig02 (s : CubeState) :
    (wakeStep s).moveTimerDig02 = s.moveTimerDig02 := by
  unfold wakeStep turnOnDisplay
  split_ifs <;> rfl

/-- Projection fact: `wakeStep` leaves `moveTimerDig03` unchanged. -/
@[simp] theorem wakeStep_moveTimerDig03 (s : CubeState) :
    (wakeStep s).moveTimerDig03 = s.moveTimerDig03 := by
  unfold wakeStep turnOnDisplay
  split_ifs <;> rfl

/-- Projection fact: `wakeStep` leaves `moveTimerDig04` unchanged. -/
@[simp] theorem wakeStep_moveTimerDig04 (s : CubeState) :
    (wakeStep s).moveTimerDig04 = s.moveTimerDig04 := by
  unfold wakeStep turnOnDisplay
  split_ifs <;> rfl

/-- Projection fact: `wakeStep` leaves `currentFace` unchanged. -/
@[simp] theorem wakeStep_currentFace (s : CubeState) :
    (wakeStep s).currentFace = s.currentFace := by
  unfold wakeStep turnOnDisplay
  split_ifs <;> rfl

/-- Projection fact: `wakeStep` leaves `currentScreen` unchanged. -/
@[simp] theorem wakeStep_currentScreen (s : CubeState) :
    (wakeStep s).currentScreen = s.currentScreen := by
  unfold wakeStep turnOnDisplay
  split_ifs <;> rfl

/-- Projection fact: `wakeStep` leaves `currentTimerMode` unchanged. -/
@[simp] theorem wakeStep_currentTimerMode (s : CubeState) :
    (wakeStep s).currentTimerMode = s.currentTimerMode := by
  unfold wakeStep turnOnDisplay
  split_ifs <;> rfl

/-- Projection fact: `wakeStep` leaves `statusFlg` unchanged. -/
@[simp] theorem wakeStep_statusFlg (s : CubeState) :
    (wakeStep s).statusFlg = s.statusFlg := by
  unfold wakeStep turnOnDisplay
  split_ifs <;> rfl

/-- Projection fact: `wakeStep` leaves `soundEnabled` unchanged. -/
@[simp] theorem wakeStep_soundEnabled (s : CubeState) :
    (wakeStep s).soundEnabled = s.soundEnabled := by
  unfold wakeStep turnOnDisplay
  split_ifs <;> rfl

/-- Projection fact: `updateGameTimer` leaves `moveTimeRemaining` unchanged. -/
@[simp] theorem updateGameTimer_moveTimeRemaining (o : Int) (s : CubeState) :
    ((updateGameTimer o s).1).moveTimeRemaining = s.moveTimeRemaining := by
  unfold updateGameTimer setDigits
  split
  · rfl
  · split_ifs <;> simp

/-- Projection fact: `updateGameTimer` leaves `initDig01` unchanged. -/
@[simp] theorem updateGameTimer_initDig01 (o : Int) (s : CubeState) :
    ((updateGameTimer o s).1).initDig01 = s.initDig01 := by
  unfold updateGameTimer setDigits
  split
  · rfl
  · split_ifs <;> simp

/-- Projection fact: `updateGameTimer` leaves `initDig02` unchanged. -/
@[simp] theorem updateGameTimer_initDig02 (o : Int) (s : CubeState) :
    ((updateGameTimer o s).1).initDig02 = s.initDig02 := by
  unfold updateGameTimer setDigits
  split
  · rfl
  · split_ifs <;> simp

/-- Projection fact: `updateGameTimer` leaves `initDig03` unchanged. -/
@[simp] theorem updateGameTimer_initDig03 (o : Int) (s : CubeState) :
    ((updateGameTimer o s).1).initDig03 = s.initDig03 := by
  unfold updateGameTimer setDigits
  split
  · rfl
  · split_ifs <;> simp

/-- Projection fact: `updateGameTimer` leaves `initDig04` unchanged. -/
@[simp] theorem updateGameTimer_initDig04 (o : Int) (s : CubeState) :
    ((updateGameTimer o s).1).initDig04 = s.initDig04 := by
  unfold updateGameTimer setDigits
  split
  · rfl
  · split_ifs <;> simp

/-- Projection fact: `updateGameTimer` leaves `moveTimerDig01` unchanged. -/
@[simp] theorem updateGameTimer_moveTimerDig01 (o : Int) (s : CubeState) :
    ((updateGameTimer o s).1).moveTimerDig01 = s.moveTimerDig01 := by
  unfold updateGameTimer setDigits
  split
  · rfl
  · split_ifs <;> simp

/-- Projection fact: `updateGameTimer` leaves `moveTimerDig02` unchanged. -/
@[simp] theorem updateGameTimer_moveTimerDig02 (o : Int) (s : CubeState) :
    ((updateGameTimer o s).1).moveTimerDig02 = s.moveTimerDig02 := by
  unfold updateGameTimer setDigits
  split
  · rfl
  · split_ifs <;> simp

/-- Projection fact: `updateGameTimer` leaves `moveTimerDig03` unchanged. -/
@[simp] theorem updateGameTimer_moveTimerDig03 (o : Int) (s : CubeState) :
    ((updateGameTimer o s).1).moveTimerDig03 = s.moveTimerDig03 := by
  unfold updateGameTimer setDigits
  split
  · rfl
  · split_ifs <;> simp

/-- Projection fact: `updateGameTimer` leaves `moveTimerDig04` unchanged. -/
@[simp] theorem updateGameTimer_moveTimerDig04 (o : Int) (s : CubeState) :
    ((updateGameTimer o s).1).moveTimerDig04 = s.moveTimerDig04 := by
  unfold updateGameTimer setDigits
  split
  · rfl
  · split_ifs <;> simp

/-- Projection fact: `updateGameTimer` leaves `currentFace` unchanged. -/
@[simp] theorem updateGameTimer_currentFace (o : Int) (s : CubeState) :
    ((updateGameTimer o s).1).currentFace = s.currentFace := by
  unfold updateGameTimer setDigits
  split
  · rfl
  · split_ifs <;> simp

/-- Projection fact: `updateGameTimer` leaves `currentScreen` unchanged. -/
@[simp] theorem updateGameTimer_currentScreen (o : Int) (s : CubeState) :
    ((updateGameTimer o s).1).currentScreen = s.currentScreen := by
  unfold updateGameTimer setDigits
  split
  · rfl
  · split_ifs <;> simp

/-- Projection fact: `updateGameTimer` leaves `currentTimerMode` unchanged. -/
@[simp] theorem updateGameTimer_currentTimerMode (o : Int) (s : CubeState) :
    ((updateGameTimer o s).1).currentTimerMode = s.currentTimerMode := by
  unfold updateGameTimer setDigits
  split
  · rfl
  · split_ifs <;> simp

/-- Projection fact: `updateGameTimer` leaves `statusFlg` unchanged. -/
@[simp] theorem updateGameTimer_statusFlg (o : Int) (s : CubeState) :
    ((updateGameTimer o s).1).statusFlg = s.statusFlg := by
  unfold updateGameTimer setDigits
  split
  · rfl
  · split_ifs <;> simp

/-- Projection fact: `updateGameTimer` leaves `soundEnabled` unchanged. -/
@[simp] theorem updateGameTimer_soundEnabled (o : Int) (s : CubeState) :
    ((updateGameTimer o s).1).soundEnabled = s.soundEnabled := by
  unfold updateGameTimer setDigits
  split
  · rfl
  · split_ifs <;> simp

/-- Projection fact: `updateMoveTimer` leaves `timeList` unchanged. -/
@[simp] theorem updateMoveTimer_timeList (o : Int) (s : CubeState) :
    ((updateMoveTimer o s).1).timeList = s.timeList := by
  unfold updateMoveTimer setDigits
  split_ifs <;> simp

/-- Projection fact: `updateMoveTimer` leaves `negativeList` unchanged. -/
@[simp] theorem updateMoveTimer_negativeList (o : Int) (s : CubeState) :
    ((updateMoveTimer o s).1).negativeList = s.negativeList := by
  unfold updateMoveTimer setDigits
  split_ifs <;> simp

/-- Projection fact: `updateMoveTimer` leaves `initDig01` unchanged. -/
@[simp] theorem updateMoveTimer_initDig01 (o : Int) (s : CubeState) :
    ((updateMoveTimer o s).1).initDig01 = s.initDig01 := by
  unfold updateMoveTimer setDigits
  split_ifs <;> simp

/-- Projection fact: `updateMoveTimer` leaves `initDig02` unchanged. -/
@[simp] theorem updateMoveTimer_initDig02 (o : Int) (s : CubeState) :
    ((updateMoveTimer o s).1).initDig02 = s.initDig02 := by
  unfold updateMoveTimer setDigits
  split_ifs <;> simp

/-- Projection fact: `updateMoveTimer` leaves `initDig03` unchanged. -/
@[simp] theorem updateMoveTimer_initDig03 (o : Int) (s : CubeState) :
    ((updateMoveTimer o s).1).initDig03 = s.initDig03 := by
  unfold updateMoveTimer setDigits
  split_ifs <;> simp

/-- Projection fact: `updateMoveTimer` leaves `initDig04` unchanged. -/
@[simp] theorem updateMoveTimer_initDig04 (o : Int) (s : CubeState) :
    ((updateMoveTimer o s).1).initDig04 = s.initDig04 := by
  unfold updateMoveTimer setDigits
  split_ifs <;> simp

/-- Projection fact: `updateMoveTimer` leaves `moveTimerDig01` unchanged. -/
@[simp] theorem updateMoveTimer_moveTimerDig01 (o : Int) (s : CubeState) :
    ((updateMoveTimer o s).1).moveTimerDig01 = s.moveTimerDig01 := by
  unfold updateMoveTimer setDigits
  split_ifs <;> simp

/-- Projection fact: `updateMoveTimer` leaves `moveTimerDig02` unchanged. -/
@[simp] theorem updateMoveTimer_moveTimerDig02 (o : Int) (s : CubeState) :
    ((updateMoveTimer o s).1).moveTimerDig02 = s.moveTimerDig02 := by
  unfold updateMoveTimer setDigits
  split_ifs <;> simp

/-- Projection fact: `updateMoveTimer` leaves `moveTimerDig03` unchanged. -/
@[simp] theorem updateMoveTimer_moveTimerDig03 (o : Int) (s : CubeState) :
    ((updateMoveTimer o s).1).moveTimerDig03 = s.moveTimerDig03 := by
  unfold updateMoveTimer setDigits
  split_ifs <;> simp

/-- Projection fact: `updateMoveTimer` leaves `moveTimerDig04` unchanged. -/
@[simp] theorem updateMoveTimer_moveTimerDig04 (o : Int) (s : CubeState) :
    ((updateMoveTimer o s).1).moveTimerDig04 = s.moveTimerDig04 := by
  unfold updateMoveTimer setDigits
  split_ifs <;> simp

/-- Projection fact: `updateMoveTimer` leaves `currentFace` unchanged. -/
@[simp] theorem updateMoveTimer_currentFace (o : Int) (s : CubeState) :
    ((updateMoveTimer o s).1).currentFace = s.currentFace := by
  unfold updateMoveTimer setDigits
  split_ifs <;> simp

/-- Projection fact: `updateMoveTimer` leaves `currentScreen` unchanged. -/
@[simp] theorem updateMoveTimer_currentScreen (o : Int) (s : CubeState) :
    ((updateMoveTimer o s).1).currentScreen = s.currentScreen := by
  unfold updateMoveTimer setDigits
  split_ifs <;> simp

/-- Projection fact: `updateMoveTimer` leaves `currentTimerMode` unchanged. -/
@[simp] theorem updateMoveTimer_currentTimerMode (o : Int) (s : CubeState) :
    ((updateMoveTimer o s).1).currentTimerMode = s.currentTimerMode := by
  unfold updateMoveTimer setDigits
  split_ifs <;> simp

/-- Projection fact: `updateMoveTimer` leaves `statusFlg` unchanged. -/
@[simp] theorem updateMoveTimer_statusFlg (o : Int) (s : CubeState) :
    ((updateMoveTimer o s).1).statusFlg = s.statusFlg := by
  unfold updateMoveTimer setDigits
  split_ifs <;> simp

/-- Projection fact: `updateMoveTimer` leaves `soundEnabled` unchanged. -/
@[simp] theorem updateMoveTimer_soundEnabled (o : Int) (s : CubeState) :
    ((updateMoveTimer o s).1).soundEnabled = s.soundEnabled := by
  unfold updateMoveTimer setDigits
  split_ifs <;> simp

/-- Fact: `switchToNextPlayer` reloads the shared move countdown from the
committed base digits. -/
@[simp] theorem switchToNextPlayer_moveTimeRemaining (s : CubeState) :
    (switchToNextPlayer s).moveTimeRemaining = moveTimerBase s := by
  unfold switchToNextPlayer
  simp

/-- Projection fact: `switchToNextPlayer` leaves `timeList` unchanged. -/
@[simp] theorem switchToNextPlayer_timeList (s : CubeState) :
    (switchToNextPlayer s).timeList = s.timeList := by
  unfold switchToNextPlayer
  simp

/-- Projection fact: `switchToNextPlayer` leaves `negativeList` unchanged. -/
@[simp] theorem switchToNextPlayer_negativeList (s : CubeState) :
    (switchToNextPlayer s).negativeList = s.negativeList := by
  unfold switchToNextPlayer
  simp

/-- Projection fact: `switchToNextPlayer` leaves `dig01` unchanged. -/
@[simp] theorem switchToNextPlayer_dig01 (s : CubeState) :
    (switchToNextPlayer s).dig01 = s.dig01 := by
  unfold switchToNextPlayer
  simp

/-- Projection fact: `switchToNextPlayer` leaves `dig02` unchanged. -/
@[simp] theorem switchToNextPlayer_dig02 (s : CubeState) :
    (switchToNextPlayer s).dig02 = s.dig02 := by
  unfold switchToNextPlayer
  simp

/-- Projection fact: `switchToNextPlayer` leaves `dig03` unchanged. -/
@[simp] theorem switchToNextPlayer_dig03 (s : CubeState) :
    (switchToNextPlayer s).dig03 = s.dig03 := by
  unfold switchToNextPlayer
  simp

/-- Projection fact: `switchToNextPlayer` leaves `dig04` unchanged. -/
@[simp] theorem switchToNextPlayer_dig04 (s : CubeState) :
    (switchToNextPlayer s).dig04 = s.dig04 := by
  unfold switchToNextPlayer
  simp

/-- Projection fact: `switchToNextPlayer` leaves `initDig01` unchanged. -/
@[simp] theorem switchToNextPlayer_initDig01 (s : CubeState) :
    (switchToNextPlayer s).initDig01 = s.initDig01 := by
  unfold switchToNextPlayer
  simp

/-- Projection fact: `switchToNextPlayer` leaves `initDig02` unchanged. -/
@[simp] theorem switchToNextPlayer_initDig02 (s : CubeState) :
    (switchToNextPlayer s).initDig02 = s.initDig02 := by
  unfold switchToNextPlayer
  simp

/-- Projection fact: `switchToNextPlayer` leaves `initDig03` unchanged. -/
@[simp] theorem switchToNextPlayer_initDig03 (s : CubeState) :
    (switchToNextPlayer s).initDig03 = s.initDig03 := by
  unfold switchToNextPlayer
  simp

/-- Projection fact: `switchToNextPlayer` leaves `initDig04` unchanged. -/
@[simp] theorem switchToNextPlayer_initDig04 (s : CubeState) :
    (switchToNextPlayer s).initDig04 = s.initDig04 := by
  unfold switchToNextPlayer
  simp

/-- Projection fact: `switchToNextPlayer` leaves `moveTimerDig01` unchanged. -/
@[simp] theorem switchToNextPlayer_moveTimerDig01 (s : CubeState) :
    (switchToNextPlayer s).moveTimerDig01 = s.moveTimerDig01 := by
  unfold switchToNextPlayer
  simp

/-- Projection fact: `switchToNextPlayer` leaves `moveTimerDig02` unchanged. -/
@[simp] theorem switchToNextPlayer_moveTimerDig02 (s : CubeState) :
    (switchToNextPlayer s).moveTimerDig02 = s.moveTimerDig02 := by
  unfold switchToNextPlayer
  simp

/-- Projection fact: `switchToNextPlayer` leaves `moveTimerDig03` unchanged. -/
@[simp] theorem switchToNextPlayer_moveTimerDig03 (s : CubeState) :
    (switchToNextPlayer s).moveTimerDig03 = s.moveTimerDig03 := by
  unfold switchToNextPlayer
  simp

/-- Projection fact: `switchToNextPlayer` leaves `moveTimerDig04` unchanged. -/
@[simp] theorem switchToNextPlayer_moveTimerDig04 (s : CubeState) :
    (switchToNextPlayer s).moveTimerDig04 = s.moveTimerDig04 := by
  unfold switchToNextPlayer
  simp

/-- Projection fact: `switchToNextPlayer` leaves `currentFace` unchanged. -/
@[simp] theorem switchToNextPlayer_currentFace (s : CubeState) :
    (switchToNextPlayer s).currentFace = s.currentFace := by
  unfold switchToNextPlayer
  simp

/-- Projection fact: `switchToNextPlayer` leaves `currentScreen` unchanged. -/
@[simp] theorem switchToNextPlayer_currentScreen (s : CubeState) :
    (switchToNextPlayer s).currentScreen = s.currentScreen := by
  unfold switchToNextPlayer
  simp

/-- Projection fact: `switchToNextPlayer` leaves `currentTimerMode` unchanged. -/
@[simp] theorem switchToNextPlayer_currentTimerMode (s : CubeState) :
    (switchToNextPlayer s).currentTimerMode = s.currentTimerMode := by
  unfold switchToNextPlayer
  simp

/-- Projection fact: `switchToNextPlayer` leaves `statusFlg` unchanged. -/
@[simp] theorem switchToNextPlayer_statusFlg (s : CubeState) :
    (switchToNextPlayer s).statusFlg = s.statusFlg := by
  unfold switchToNextPlayer
  simp

/-- Projection fact: `switchToNextPlayer` leaves `soundEnabled` unchanged. -/
@[simp] theorem switchToNextPlayer_soundEnabled (s : CubeState) :
    (switchToNextPlayer s).soundEnabled = s.soundEnabled := by
  unfold switchToNextPlayer
  simp


/-- Digit projection fact: `drawPhase` leaves the display digits unchanged. -/
@[simp] theorem digitsOf_drawPhase (s : CubeState) :
    digitsOf (drawPhase s) = digitsOf s := by
  unfold digitsOf
  rw [drawPhase_dig01, drawPhase_dig02, drawPhase_dig03, drawPhase_dig04]

/-- Digit write-out fact: `setDigits` stores exactly the given quadruple. -/
@[simp] theorem digitsOf_setDigits (s : CubeState) (d : Int × Int × Int × Int) :
    digitsOf (setDigits s d) = d := rfl

/-- Mode dispatch in Move-Timer mode is `updateMoveTimer`. -/
theorem modeUpdate_move (o : Int) (s : CubeState) (h : s.currentTimerMode = MOVE_TIMER) :
    modeUpdate o s = updateMoveTimer o s := by
  unfold modeUpdate
  rw [h]
  rfl

/-- Mode dispatch in Game-Timer mode is `updateGameTimer`. -/
theorem modeUpdate_game (o : Int) (s : CubeState) (h : s.currentTimerMode = GAME_TIMER) :
    modeUpdate o s = updateGameTimer o s := by
  unfold modeUpdate
  rw [h]
  rfl

/-- A tick whose classifier result matches the current face changes no
state in the face-change block and emits no switch tone. -/
theorem faceChangeStep_same (orientation : Int) (s : CubeState)
    (h : ¬(orientation ≥ 0 ∧ orientation ≠ s.currentFace)) :
    faceChangeStep orientation s = (s, []) := by
  unfold faceChangeStep
  rw [if_neg h]

/-- Characterization of the counting-down branch of `updateMoveTimer`. -/
theorem updateMoveTimer_pos (o : Int) (s : CubeState) (h : 0 < s.moveTimeRemaining) :
    ((updateMoveTimer o s).1).moveTimeRemaining = s.moveTimeRemaining - 1 ∧
    digitsOf (updateMoveTimer o s).1 = calculateTimeDigits s.moveTimeRemaining := by
  unfold updateMoveTimer
  rw [if_pos h]
  constructor
  · simp [setDigits]
  · simp [digitsOf, setDigits]

/-- Characterization of the expired branch of `updateMoveTimer`: the shared
countdown holds, the display shows 00:00, and (with sound on) the low 300ms
expiry tone is emitted on every such tick. -/
theorem updateMoveTimer_zero (o : Int) (s : CubeState) (h : ¬0 < s.moveTimeRemaining) :
    ((updateMoveTimer o s).1).moveTimeRemaining = s.moveTimeRemaining ∧
    ((updateMoveTimer o s).1).dig01 = 0 ∧
    ((updateMoveTimer o s).1).dig02 = 0 ∧
    ((updateMoveTimer o s).1).dig03 = 0 ∧
    ((updateMoveTimer o s).1).dig04 = 0 ∧
    (updateMoveTimer o s).2 =
      (if s.soundEnabled then [(TONE_FREQ_LOW, TONE_DURATION_WARNING * 3)] else []) := by
  unfold updateMoveTimer
  rw [if_neg h]
  split_ifs with hs <;> simp_all [setDigits]

/-- Characterization of the countdown branch of `updateGameTimer`. -/
theorem updateGameTimer_countdown (o : Int) (f : Fin 5) (s : CubeState)
    (hidx : toIdx o = some f) (hflag : s.negativeList f ≠ 1) (hpos : s.timeList f > 0) :
    updateGameTimer o s =
      checkTimeWarnings (s.timeList f) o
        { setDigits s (calculateTimeDigits (s.timeList f)) with
            timeList := updF s.timeList f (s.timeList f - 1) } := by
  unfold updateGameTimer
  simp only [hidx]
  rw [if_pos hflag, if_pos hpos]

/-- Characterization of the expiry branch of `updateGameTimer`: the tick at
which the slot would go negative instead displays 00:00, raises the
overtime flag, seeds the overtime counter at 1 and (with sound on) emits
the low 300ms expiry tone. -/
theorem updateGameTimer_expiry (o : Int) (f : Fin 5) (s : CubeState)
    (hidx : toIdx o = some f) (hflag : s.negativeList f ≠ 1) (hz : ¬s.timeList f > 0) :
    ((updateGameTimer o s).1).negativeList = updF s.negativeList f 1 ∧
    ((updateGameTimer o s).1).timeList = updF s.timeList f 1 ∧
    digitsOf (updateGameTimer o s).1 = (0, 0, 0, 0) ∧
    (updateGameTimer o s).2 =
      (if s.soundEnabled then [(TONE_FREQ_LOW, TONE_DURATION_WARNING * 3)] else []) := by
  unfold updateGameTimer
  simp only [hidx]
  rw [if_pos hflag, if_neg hz]
  split_ifs with hs <;> simp_all [setDigits, digitsOf]

/-- Characterization of the overtime branch of `updateGameTimer`: the slot
counts up, the flag stays raised and no tone is emitted. -/
theorem updateGameTimer_overtime (o : Int) (f : Fin 5) (s : CubeState)
    (hidx : toIdx o = some f) (hflag : s.negativeList f = 1) :
    ((updateGameTimer o s).1).negativeList = s.negativeList ∧
    ((updateGameTimer o s).1).timeList = updF s.timeList f (s.timeList f + 1) ∧
    digitsOf (updateGameTimer o s).1 = calculateTimeDigits (s.timeList f) ∧
    (updateGameTimer o s).2 = [] := by
  unfold updateGameTimer
  simp only [hidx]
  rw [if_neg (by simp [hflag])]
  simp [setDigits, digitsOf]

/-- The warning scheduler emits at most one tone, and only the mid 200ms or
low 200ms warning tone, never the 300ms expiry tone. -/
theorem checkTimeWarnings_tones (r p : Int) (s : CubeState) :
    (checkTimeWarnings r p s).2 = [] ∨
    (checkTimeWarnings r p s).2 = [(TONE_FREQ_MID, TONE_DURATION_LONG * 2)] ∨
    (checkTimeWarnings r p s).2 = [(TONE_FREQ_LOW, TONE_DURATION_WARNING * 2)] := by
  unfold checkTimeWarnings
  split
  · simp
  · split_ifs <;> simp


/-- Projection fact: `modeUpdate` leaves `initDig01` unchanged. -/
@[simp] theorem modeUpdate_initDig01 (o : Int) (s : CubeState) :
    ((modeUpdate o s).1).initDig01 = s.initDig01 := by
  unfold modeUpdate
  split_ifs <;> simp

/-- Projection fact: `modeUpdate` leaves `initDig02` unchanged. -/
@[simp] theorem modeUpdate_initDig02 (o : Int) (s : CubeState) :
    ((modeUpdate o s).1).initDig02 = s.initDig02 := by
  unfold modeUpdate
  split_ifs <;> simp

/-- Projection fact: `modeUpdate` leaves `initDig03` unchanged. -/
@[simp] theorem modeUpdate_initDig03 (o : Int) (s : CubeState) :
    ((modeUpdate o s).1).initDig03 = s.initDig03 := by
  unfold modeUpdate
  split_ifs <;> simp

/-- Projection fact: `modeUpdate` leaves `initDig04` unchanged. -/
@[simp] theorem modeUpdate_initDig04 (o : Int) (s : CubeState) :
    ((modeUpdate o s).1).initDig04 = s.initDig04 := by
  unfold modeUpdate
  split_ifs <;> simp

/-- Projection fact: `modeUpdate` leaves `moveTimerDig01` unchanged. -/
@[simp] theorem modeUpdate_moveTimerDig01 (o : Int) (s : CubeState) :
    ((modeUpdate o s).1).moveTimerDig01 = s.moveTimerDig01 := by
  unfold modeUpdate
  split_ifs <;> simp

/-- Projection fact: `modeUpdate` leaves `moveTimerDig02` unchanged. -/
@[simp] theorem modeUpdate_moveTimerDig02 (o : Int) (s : CubeState) :
    ((modeUpdate o s).1).moveTimerDig02 = s.moveTimerDig02 := by
  unfold modeUpdate
  split_ifs <;> simp

/-- Projection fact: `modeUpdate` leaves `moveTimerDig03` unchanged. -/
@[simp] theorem modeUpdate_moveTimerDig03 (o : Int) (s : CubeState) :
    ((modeUpdate o s).1).moveTimerDig03 = s.moveTimerDig03 := by
  unfold modeUpdate
  split_ifs <;> simp

/-- Projection fact: `modeUpdate` leaves `moveTimerDig04` unchanged. -/
@[simp] theorem modeUpdate_moveTimerDig04 (o : Int) (s : CubeState) :
    ((modeUpdate o s).1).moveTimerDig04 = s.moveTimerDig04 := by
  unfold modeUpdate
  split_ifs <;> simp

/-- Projection fact: `modeUpdate` leaves `currentFace` unchanged. -/
@[simp] theorem modeUpdate_currentFace (o : Int) (s : CubeState) :
    ((modeUpdate o s).1).currentFace = s.currentFace := by
  unfold modeUpdate
  split_ifs <;> simp

/-- Projection fact: `modeUpdate` leaves `currentScreen` unchanged. -/
@[simp] theorem modeUpdate_currentScreen (o : Int) (s : CubeState) :
    ((modeUpdate o s).1).currentScreen = s.currentScreen := by
  unfold modeUpdate
  split_ifs <;> simp

/-- Projection fact: `modeUpdate` leaves `currentTimerMode` unchanged. -/
@[simp] theorem modeUpdate_currentTimerMode (o : Int) (s : CubeState) :
    ((modeUpdate o s).1).currentTimerMode = s.currentTimerMode := by
  unfold modeUpdate
  split_ifs <;> simp

/-- Projection fact: `modeUpdate` leaves `statusFlg` unchanged. -/
@[simp] theorem modeUpdate_statusFlg (o : Int) (s : CubeState) :
    ((modeUpdate o s).1).statusFlg = s.statusFlg := by
  unfold modeUpdate
  split_ifs <;> simp

/-- Projection fact: `modeUpdate` leaves `soundEnabled` unchanged. -/
@[simp] theorem modeUpdate_soundEnabled (o : Int) (s : CubeState) :
    ((modeUpdate o s).1).soundEnabled = s.soundEnabled := by
  unfold modeUpdate
  split_ifs <;> simp

/-- Projection fact: `incrementDigit` leaves `timeList` unchanged. -/
@[simp] theorem incrementDigit_timeList (s : CubeState) :
    (incrementDigit s).timeList = s.timeList := by
  unfold incrementDigit
  split_ifs <;> rfl

/-- Projection fact: `incrementDigit` leaves `negativeList` unchanged. -/
@[simp] theorem incrementDigit_negativeList (s : CubeState) :
    (incrementDigit s).negativeList = s.negativeList := by
  unfold incrementDigit
  split_ifs <;> rfl

/-- Projection fact: `incrementDigit` leaves `moveTimeRemaining` unchanged. -/
@[simp] theorem incrementDigit_moveTimeRemaining (s : CubeState) :
    (incrementDigit s).moveTimeRemaining = s.moveTimeRemaining := by
  unfold incrementDigit
  split_ifs <;> rfl

/-- Projection fact: `incrementDigit` leaves `moveTimerDig01` unchanged. -/
@[simp] theorem incrementDigit_moveTimerDig01 (s : CubeState) :
    (incrementDigit s).moveTimerDig01 = s.moveTimerDig01 := by
  unfold incrementDigit
  split_ifs <;> rfl

/-- Projection fact: `incrementDigit` leaves `moveTimerDig02` unchanged. -/
@[simp] theorem incrementDigit_moveTimerDig02 (s : CubeState) :
    (incrementDigit s).moveTimerDig02 = s.moveTimerDig02 := by
  unfold incrementDigit
  split_ifs <;> rfl

/-- Projection fact: `incrementDigit` leaves `moveTimerDig03` unchanged. -/
@[simp] theorem incrementDigit_moveTimerDig03 (s : CubeState) :
    (incrementDigit s).moveTimerDig03 = s.moveTimerDig03 := by
  unfold incrementDigit
  split_ifs <;> rfl

/-- Projection fact: `incrementDigit` leaves `moveTimerDig04` unchanged. -/
@[simp] theorem incrementDigit_moveTimerDig04 (s : CubeState) :
    (incrementDigit s).moveTimerDig04 = s.moveTimerDig04 := by
  unfold incrementDigit
  split_ifs <;> rfl

/-- Projection fact: `incrementDigit` leaves `currentFace` unchanged. -/
@[simp] theorem incrementDigit_currentFace (s : CubeState) :
    (incrementDigit s).currentFace = s.currentFace := by
  unfold incrementDigit
  split_ifs <;> rfl

/-- Projection fact: `incrementDigit` leaves `currentScreen` unchanged. -/
@[simp] theorem incrementDigit_currentScreen (s : CubeState) :
    (incrementDigit s).currentScreen = s.currentScreen := by
  unfold incrementDigit
  split_ifs <;> rfl

/-- Projection fact: `incrementDigit` leaves `currentTimerMode` unchanged. -/
@[simp] theorem incrementDigit_currentTimerMode (s : CubeState) :
    (incrementDigit s).currentTimerMode = s.currentTimerMode := by
  unfold incrementDigit
  split_ifs <;> rfl

/-- Projection fact: `incrementDigit` leaves `statusFlg` unchanged. -/
@[simp] theorem incrementDigit_statusFlg (s : CubeState) :
    (incrementDigit s).statusFlg = s.statusFlg := by
  unfold incrementDigit
  split_ifs <;> rfl

/-- Projection fact: `incrementDigit` leaves `soundEnabled` unchanged. -/
@[simp] theorem incrementDigit_soundEnabled (s : CubeState) :
    (incrementDigit s).soundEnabled = s.soundEnabled := by
  unfold incrementDigit
  split_ifs <;> rfl

/-- Projection fact: `nextDigitPosition` leaves `timeList` unchanged. -/
@[simp] theorem nextDigitPosition_timeList (s : CubeState) :
    (nextDigitPosition s).timeList = s.timeList := by
  rfl

/-- Projection fact: `nextDigitPosition` leaves `negativeList` unchanged. -/
@[simp] theorem nextDigitPosition_negativeList (s : CubeState) :
    (nextDigitPosition s).negativeList = s.negativeList := by
  rfl

/-- Projection fact: `nextDigitPosition` leaves `moveTimeRemaining` unchanged. -/
@[simp] theorem nextDigitPosition_moveTimeRemaining (s : CubeState) :
    (nextDigitPosition s).moveTimeRemaining = s.moveTimeRemaining := by
  rfl

/-- Projection fact: `nextDigitPosition` leaves `dig01` unchanged. -/
@[simp] theorem nextDigitPosition_dig01 (s : CubeState) :
    (nextDigitPosition s).dig01 = s.dig01 := by
  rfl

/-- Projection fact: `nextDigitPosition` leaves `dig02` unchanged. -/
@[simp] theorem nextDigitPosition_dig02 (s : CubeState) :
    (nextDigitPosition s).dig02 = s.dig02 := by
  rfl

/-- Projection fact: `nextDigitPosition` leaves `dig03` unchanged. -/
@[simp] theorem nextDigitPosition_dig03 (s : CubeState) :
    (nextDigitPosition s).dig03 = s.dig03 := by
  rfl

/-- Projection fact: `nextDigitPosition` leaves `dig04` unchanged. -/
@[simp] theorem nextDigitPosition_dig04 (s : CubeState) :
    (nextDigitPosition s).dig04 = s.dig04 := by
  rfl

/-- Projection fact: `nextDigitPosition` leaves `initDig01` unchanged. -/
@[simp] theorem nextDigitPosition_initDig01 (s : CubeState) :
    (nextDigitPosition s).initDig01 = s.initDig01 := by
  rfl

/-- Projection fact: `nextDigitPosition` leaves `initDig02` unchanged. -/
@[simp] theorem nextDigitPosition_initDig02 (s : CubeState) :
    (nextDigitPosition s).initDig02 = s.initDig02 := by
  rfl

/-- Projection fact: `nextDigitPosition` leaves `initDig03` unchanged. -/
@[simp] theorem nextDigitPosition_initDig03 (s : CubeState) :
    (nextDigitPosition s).initDig03 = s.initDig03 := by
  rfl

/-- Projection fact: `nextDigitPosition` leaves `initDig04` unchanged. -/
@[simp] theorem nextDigitPosition_initDig04 (s : CubeState) :
    (nextDigitPosition s).initDig04 = s.initDig04 := by
  rfl

/-- Projection fact: `nextDigitPosition` leaves `moveTimerDig01` unchanged. -/
@[simp] theorem nextDigitPosition_moveTimerDig01 (s : CubeState) :
    (nextDigitPosition s).moveTimerDig01 = s.moveTimerDig01 := by
  rfl

/-- Projection fact: `nextDigitPosition` leaves `moveTimerDig02` unchanged. -/
@[simp] theorem nextDigitPosition_moveTimerDig02 (s : CubeState) :
    (nextDigitPosition s).moveTimerDig02 = s.moveTimerDig02 := by
  rfl

/-- Projection fact: `nextDigitPosition` leaves `moveTimerDig03` unchanged. -/
@[simp] theorem nextDigitPosition_moveTimerDig03 (s : CubeState) :
    (nextDigitPosition s).moveTimerDig03 = s.moveTimerDig03 := by
  rfl

/-- Projection fact: `nextDigitPosition` leaves `moveTimerDig04` unchanged. -/
@[simp] theorem nextDigitPosition_moveTimerDig04 (s : CubeState) :
    (nextDigitPosition s).moveTimerDig04 = s.moveTimerDig04 := by
  rfl

/-- Projection fact: `nextDigitPosition` leaves `currentFace` unchanged. -/
@[simp] theorem nextDigitPosition_currentFace (s : CubeState) :
    (nextDigitPosition s).currentFace = s.currentFace := by
  rfl

/-- Projection fact: `nextDigitPosition` leaves `currentScreen` unchanged. -/
@[simp] theorem nextDigitPosition_currentScreen (s : CubeState) :
    (nextDigitPosition s).currentScreen = s.currentScreen := by
  rfl

/-- Projection fact: `nextDigitPosition` leaves `currentTimerMode` unchanged. -/
@[simp] theorem nextDigitPosition_currentTimerMode (s : CubeState) :
    (nextDigitPosition s).currentTimerMode = s.currentTimerMode := by
  rfl

/-- Projection fact: `nextDigitPosition` leaves `statusFlg` unchanged. -/
@[simp] theorem nextDigitPosition_statusFlg (s : CubeState) :
    (nextDigitPosition s).statusFlg = s.statusFlg := by
  rfl

/-- Projection fact: `nextDigitPosition` leaves `soundEnabled` unchanged. -/
@[simp] theorem nextDigitPosition_soundEnabled (s : CubeState) :
    (nextDigitPosition s).soundEnabled = s.soundEnabled := by
  rfl

/-- Projection fact: `restoreSetupDigits` leaves `timeList` unchanged. -/
@[simp] theorem restoreSetupDigits_timeList (s : CubeState) :
    (restoreSetupDigits s).timeList = s.timeList := by
  rfl

/-- Projection fact: `restoreSetupDigits` leaves `negativeList` unchanged. -/
@[simp] theorem restoreSetupDigits_negativeList (s : CubeState) :
    (restoreSetupDigits s).negativeList = s.negativeList := by
  rfl

/-- Projection fact: `restoreSetupDigits` leaves `moveTimeRemaining` unchanged. -/
@[simp] theorem restoreSetupDigits_moveTimeRemaining (s : CubeState) :
    (restoreSetupDigits s).moveTimeRemaining = s.moveTimeRemaining := by
  rfl

/-- Projection fact: `restoreSetupDigits` leaves `initDig01` unchanged. -/
@[simp] theorem restoreSetupDigits_initDig01 (s : CubeState) :
    (restoreSetupDigits s).initDig01 = s.initDig01 := by
  rfl

/-- Projection fact: `restoreSetupDigits` leaves `initDig02` unchanged. -/
@[simp] theorem restoreSetupDigits_initDig02 (s : CubeState) :
    (restoreSetupDigits s).initDig02 = s.initDig02 := by
  rfl

/-- Projection fact: `restoreSetupDigits` leaves `initDig03` unchanged. -/
@[simp] theorem restoreSetupDigits_initDig03 (s : CubeState) :
    (restoreSetupDigits s).initDig03 = s.initDig03 := by
  rfl

/-- Projection fact: `restoreSetupDigits` leaves `initDig04` unchanged. -/
@[simp] theorem restoreSetupDigits_initDig04 (s : CubeState) :
    (restoreSetupDigits s).initDig04 = s.initDig04 := by
  rfl

/-- Projection fact: `restoreSetupDigits` leaves `moveTimerDig01` unchanged. -/
@[simp] theorem restoreSetupDigits_moveTimerDig01 (s : CubeState) :
    (restoreSetupDigits s).moveTimerDig01 = s.moveTimerDig01 := by
  rfl

/-- Projection fact: `restoreSetupDigits` leaves `moveTimerDig02` unchanged. -/
@[simp] theorem restoreSetupDigits_moveTimerDig02 (s : CubeState) :
    (restoreSetupDigits s).moveTimerDig02 = s.moveTimerDig02 := by
  rfl

/-- Projection fact: `restoreSetupDigits` leaves `moveTimerDig03` unchanged. -/
@[simp] theorem restoreSetupDigits_moveTimerDig03 (s : CubeState) :
    (restoreSetupDigits s).moveTimerDig03 = s.moveTimerDig03 := by
  rfl

/-- Projection fact: `restoreSetupDigits` leaves `moveTimerDig04` unchanged. -/
@[simp] theorem restoreSetupDigits_moveTimerDig04 (s : CubeState) :
    (restoreSetupDigits s).moveTimerDig04 = s.moveTimerDig04 := by
  rfl

/-- Projection fact: `restoreSetupDigits` leaves `currentFace` unchanged. -/
@[simp] theorem restoreSetupDigits_currentFace (s : CubeState) :
    (restoreSetupDigits s).currentFace = s.currentFace := by
  rfl

/-- Projection fact: `restoreSetupDigits` leaves `currentScreen` unchanged. -/
@[simp] theorem restoreSetupDigits_currentScreen (s : CubeState) :
    (restoreSetupDigits s).currentScreen = s.currentScreen := by
  rfl

/-- Projection fact: `restoreSetupDigits` leaves `currentTimerMode` unchanged. -/
@[simp] theorem restoreSetupDigits_currentTimerMode (s : CubeState) :
    (restoreSetupDigits s).currentTimerMode = s.currentTimerMode := by
  rfl

/-- Projection fact: `restoreSetupDigits` leaves `statusFlg` unchanged. -/
@[simp] theorem restoreSetupDigits_statusFlg (s : CubeState) :
    (restoreSetupDigits s).statusFlg = s.statusFlg := by
  rfl

/-- Projection fact: `restoreSetupDigits` leaves `soundEnabled` unchanged. -/
@[simp] theorem restoreSetupDigits_soundEnabled (s : CubeState) :
    (restoreSetupDigits s).soundEnabled = s.soundEnabled := by
  rfl

/-- Projection fact: `pauseTimer` leaves `timeList` unchanged. -/
@[simp] theorem pauseTimer_timeList (s : CubeState) :
    (pauseTimer s).timeList = s.timeList := by
  rfl

/-- Projection fact: `pauseTimer` leaves `negativeList` unchanged. -/
@[simp] theorem pauseTimer_negativeList (s : CubeState) :
    (pauseTimer s).negativeList = s.negativeList := by
  rfl

/-- Projection fact: `pauseTimer` leaves `moveTimeRemaining` unchanged. -/
@[simp] theorem pauseTimer_moveTimeRemaining (s : CubeState) :
    (pauseTimer s).moveTimeRemaining = s.moveTimeRemaining := by
  rfl

/-- Projection fact: `pauseTimer` leaves `dig01` unchanged. -/
@[simp] theorem pauseTimer_dig01 (s : CubeState) :
    (pauseTimer s).dig01 = s.dig01 := by
  rfl

/-- Projection fact: `pauseTimer` leaves `dig02` unchanged. -/
@[simp] theorem pauseTimer_dig02 (s : CubeState) :
    (pauseTimer s).dig02 = s.dig02 := by
  rfl

/-- Projection fact: `pauseTimer` leaves `dig03` unchanged. -/
@[simp] theorem pauseTimer_dig03 (s : CubeState) :
    (pauseTimer s).dig03 = s.dig03 := by
  rfl

/-- Projection fact: `pauseTimer` leaves `dig04` unchanged. -/
@[simp] theorem pauseTimer_dig04 (s : CubeState) :
    (pauseTimer s).dig04 = s.dig04 := by
  rfl

/-- Projection fact: `pauseTimer` leaves `initDig01` unchanged. -/
@[simp] theorem pauseTimer_initDig01 (s : CubeState) :
    (pauseTimer s).initDig01 = s.initDig01 := by
  rfl

/-- Projection fact: `pauseTimer` leaves `initDig02` unchanged. -/
@[simp] theorem pauseTimer_initDig02 (s : CubeState) :
    (pauseTimer s).initDig02 = s.initDig02 := by
  rfl

/-- Projection fact: `pauseTimer` leaves `initDig03` unchanged. -/
@[simp] theorem pauseTimer_initDig03 (s : CubeState) :
    (pauseTimer s).initDig03 = s.initDig03 := by
  rfl

/-- Projection fact: `pauseTimer` leaves `initDig04` unchanged. -/
@[simp] theorem pauseTimer_initDig04 (s : CubeState) :
    (pauseTimer s).initDig04 = s.initDig04 := by
  rfl

/-- Projection fact: `pauseTimer` leaves `moveTimerDig01` unchanged. -/
@[simp] theorem pauseTimer_moveTimerDig01 (s : CubeState) :
    (pauseTimer s).moveTimerDig01 = s.moveTimerDig01 := by
  rfl

/-- Projection fact: `pauseTimer` leaves `moveTimerDig02` unchanged. -/
@[simp] theorem pauseTimer_moveTimerDig02 (s : CubeState) :
    (pauseTimer s).moveTimerDig02 = s.moveTimerDig02 := by
  rfl

/-- Projection fact: `pauseTimer` leaves `moveTimerDig03` unchanged. -/
@[simp] theorem pauseTimer_moveTimerDig03 (s : CubeState) :
    (pauseTimer s).moveTimerDig03 = s.moveTimerDig03 := by
  rfl

/-- Projection fact: `pauseTimer` leaves `moveTimerDig04` unchanged. -/
@[simp] theorem pauseTimer_moveTimerDig04 (s : CubeState) :
    (pauseTimer s).moveTimerDig04 = s.moveTimerDig04 := by
  rfl

/-- Projection fact: `pauseTimer` leaves `currentFace` unchanged. -/
@[simp] theorem pauseTimer_currentFace (s : CubeState) :
    (pauseTimer s).currentFace = s.currentFace := by
  rfl

/-- Projection fact: `pauseTimer` leaves `currentScreen` unchanged. -/
@[simp] theorem pauseTimer_currentScreen (s : CubeState) :
    (pauseTimer s).currentScreen = s.currentScreen := by
  rfl

/-- Projection fact: `pauseTimer` leaves `currentTimerMode` unchanged. -/
@[simp] theorem pauseTimer_currentTimerMode (s : CubeState) :
    (pauseTimer s).currentTimerMode = s.currentTimerMode := by
  rfl

/-- Projection fact: `pauseTimer` leaves `soundEnabled` unchanged. -/
@[simp] theorem pauseTimer_soundEnabled (s : CubeState) :
    (pauseTimer s).soundEnabled = s.soundEnabled := by
  rfl

/-- Projection fact: `resumeTimer` leaves `timeList` unchanged. -/
@[simp] theorem resumeTimer_timeList (o : Int) (s : CubeState) :
    (resumeTimer o s).timeList = s.timeList := by
  unfold resumeTimer
  simp

/-- Projection fact: `resumeTimer` leaves `negativeList` unchanged. -/
@[simp] theorem resumeTimer_negativeList (o : Int) (s : CubeState) :
    (resumeTimer o s).negativeList = s.negativeList := by
  unfold resumeTimer
  simp

/-- Projection fact: `resumeTimer` leaves `moveTimeRemaining` unchanged. -/
@[simp] theorem resumeTimer_moveTimeRemaining (o : Int) (s : CubeState) :
    (resumeTimer o s).moveTimeRemaining = s.moveTimeRemaining := by
  unfold resumeTimer
  simp

/-- Projection fact: `resumeTimer` leaves `dig01` unchanged. -/
@[simp] theorem resumeTimer_dig01 (o : Int) (s : CubeState) :
    (resumeTimer o s).dig01 = s.dig01 := by
  unfold resumeTimer
  simp

/-- Projection fact: `resumeTimer` leaves `dig02` unchanged. -/
@[simp] theorem resumeTimer_dig02 (o : Int) (s : CubeState) :
    (resumeTimer o s).dig02 = s.dig02 := by
  unfold resumeTimer
  simp

/-- Projection fact: `resumeTimer` leaves `dig03` unchanged. -/
@[simp] theorem resumeTimer_dig03 (o : Int) (s : CubeState) :
    (resumeTimer o s).dig03 = s.dig03 := by
  unfold resumeTimer
  simp

/-- Projection fact: `resumeTimer` leaves `dig04` unchanged. -/
@[simp] theorem resumeTimer_dig04 (o : Int) (s : CubeState) :
    (resumeTimer o s).dig04 = s.dig04 := by
  unfold resumeTimer
  simp

/-- Projection fact: `resumeTimer` leaves `initDig01` unchanged. -/
@[simp] theorem resumeTimer_initDig01 (o : Int) (s : CubeState) :
    (resumeTimer o s).initDig01 = s.initDig01 := by
  unfold resumeTimer
  simp

/-- Projection fact: `resumeTimer` leaves `initDig02` unchanged. -/
@[simp] theorem resumeTimer_initDig02 (o : Int) (s : CubeState) :
    (resumeTimer o s).initDig02 = s.initDig02 := by
  unfold resumeTimer
  simp

/-- Projection fact: `resumeTimer` leaves `initDig03` unchanged. -/
@[simp] theorem resumeTimer_initDig03 (o : Int) (s : CubeState) :
    (resumeTimer o s).initDig03 = s.initDig03 := by
  unfold resumeTimer
  simp

/-- Projection fact: `resumeTimer` leaves `initDig04` unchanged. -/
@[simp] theorem resumeTimer_initDig04 (o : Int) (s : CubeState) :
    (resumeTimer o s).initDig04 = s.initDig04 := by
  unfold resumeTimer
  simp

/-- Projection fact: `resumeTimer` leaves `moveTimerDig01` unchanged. -/
@[simp] theorem resumeTimer_moveTimerDig01 (o : Int) (s : CubeState) :
    (resumeTimer o s).moveTimerDig01 = s.moveTimerDig01 := by
  unfold resumeTimer
  simp

/-- Projection fact: `resumeTimer` leaves `moveTimerDig02` unchanged. -/
@[simp] theorem resumeTimer_moveTimerDig02 (o : Int) (s : CubeState) :
    (resumeTimer o s).moveTimerDig02 = s.moveTimerDig02 := by
  unfold resumeTimer
  simp

/-- Projection fact: `resumeTimer` leaves `moveTimerDig03` unchanged. -/
@[simp] theorem resumeTimer_moveTimerDig03 (o : Int) (s : CubeState) :
    (resumeTimer o s).moveTimerDig03 = s.moveTimerDig03 := by
  unfold resumeTimer
  simp

/-- Projection fact: `resumeTimer` leaves `moveTimerDig04` unchanged. -/
@[simp] theorem resumeTimer_moveTimerDig04 (o : Int) (s : CubeState) :
    (resumeTimer o s).moveTimerDig04 = s.moveTimerDig04 := by
  unfold resumeTimer
  simp

/-- Projection fact: `resumeTimer` leaves `currentScreen` unchanged. -/
@[simp] theorem resumeTimer_currentScreen (o : Int) (s : CubeState) :
    (resumeTimer o s).currentScreen = s.currentScreen := by
  unfold resumeTimer
  simp

/-- Projection fact: `resumeTimer` leaves `currentTimerMode` unchanged. -/
@[simp] theorem resumeTimer_currentTimerMode (o : Int) (s : CubeState) :
    (resumeTimer o s).currentTimerMode = s.currentTimerMode := by
  unfold resumeTimer
  simp

/-- Projection fact: `resumeTimer` leaves `soundEnabled` unchanged. -/
@[simp] theorem resumeTimer_soundEnabled (o : Int) (s : CubeState) :
    (resumeTimer o s).soundEnabled = s.soundEnabled := by
  unfold resumeTimer
  simp

/-- Projection fact: `initializeTimers` leaves `dig01` unchanged. -/
@[simp] theorem initializeTimers_dig01 (s : CubeState) :
    (initializeTimers s).dig01 = s.dig01 := by
  unfold initializeTimers
  split_ifs <;> rfl

/-- Projection fact: `initializeTimers` leaves `dig02` unchanged. -/
@[simp] theorem initializeTimers_dig02 (s : CubeState) :
    (initializeTimers s).dig02 = s.dig02 := by
  unfold initializeTimers
  split_ifs <;> rfl

/-- Projection fact: `initializeTimers` leaves `dig03` unchanged. -/
@[simp] theorem initializeTimers_dig03 (s : CubeState) :
    (initializeTimers s).dig03 = s.dig03 := by
  unfold initializeTimers
  split_ifs <;> rfl

/-- Projection fact: `initializeTimers` leaves `dig04` unchanged. -/
@[simp] theorem initializeTimers_dig04 (s : CubeState) :
    (initializeTimers s).dig04 = s.dig04 := by
  unfold initializeTimers
  split_ifs <;> rfl

/-- Projection fact: `initializeTimers` leaves `initDig01` unchanged. -/
@[simp] theorem initializeTimers_initDig01 (s : CubeState) :
    (initializeTimers s).initDig01 = s.initDig01 := by
  unfold initializeTimers
  split_ifs <;> rfl

/-- Projection fact: `initializeTimers` leaves `initDig02` unchanged. -/
@[simp] theorem initializeTimers_initDig02 (s : CubeState) :
    (initializeTimers s).initDig02 = s.initDig02 := by
  unfold initializeTimers
  split_ifs <;> rfl

/-- Projection fact: `initializeTimers` leaves `initDig03` unchanged. -/
@[simp] theorem initializeTimers_initDig03 (s : CubeState) :
    (initializeTimers s).initDig03 = s.initDig03 := by
  unfold initializeTimers
  split_ifs <;> rfl

/-- Projection fact: `initializeTimers` leaves `initDig04` unchanged. -/
@[simp] theorem initializeTimers_initDig04 (s : CubeState) :
    (initializeTimers s).initDig04 = s.initDig04 := by
  unfold initializeTimers
  split_ifs <;> rfl

/-- Projection fact: `initializeTimers` leaves `currentFace` unchanged. -/
@[simp] theorem initializeTimers_currentFace (s : CubeState) :
    (initializeTimers s).currentFace = s.currentFace := by
  unfold initializeTimers
  split_ifs <;> rfl

/-- Projection fact: `initializeTimers` leaves `currentScreen` unchanged. -/
@[simp] theorem initializeTimers_currentScreen (s : CubeState) :
    (initializeTimers s).currentScreen = s.currentScreen := by
  unfold initializeTimers
  split_ifs <;> rfl

/-- Projection fact: `initializeTimers` leaves `currentTimerMode` unchanged. -/
@[simp] theorem initializeTimers_currentTimerMode (s : CubeState) :
    (initializeTimers s).currentTimerMode = s.currentTimerMode := by
  unfold initializeTimers
  split_ifs <;> rfl

/-- Projection fact: `initializeTimers` leaves `statusFlg` unchanged. -/
@[simp] theorem initializeTimers_statusFlg (s : CubeState) :
    (initializeTimers s).statusFlg = s.statusFlg := by
  unfold initializeTimers
  split_ifs <;> rfl

/-- Projection fact: `initializeTimers` leaves `soundEnabled` unchanged. -/
@[simp] theorem initializeTimers_soundEnabled (s : CubeState) :
    (initializeTimers s).soundEnabled = s.soundEnabled := by
  unfold initializeTimers
  split_ifs <;> rfl

/-- Projection fact: `startTimerFromSetup` leaves `dig01` unchanged. -/
@[simp] theorem startTimerFromSetup_dig01 (o : Int) (s : CubeState) :
    (startTimerFromSetup o s).dig01 = s.dig01 := by
  unfold startTimerFromSetup
  simp

/-- Projection fact: `startTimerFromSetup` leaves `dig02` unchanged. -/
@[simp] theorem startTimerFromSetup_dig02 (o : Int) (s : CubeState) :
    (startTimerFromSetup o s).dig02 = s.dig02 := by
  unfold startTimerFromSetup
  simp

/-- Projection fact: `startTimerFromSetup` leaves `dig03` unchanged. -/
@[simp] theorem startTimerFromSetup_dig03 (o : Int) (s : CubeState) :
    (startTimerFromSetup o s).dig03 = s.dig03 := by
  unfold startTimerFromSetup
  simp

/-- Projection fact: `startTimerFromSetup` leaves `dig04` unchanged. -/
@[simp] theorem startTimerFromSetup_dig04 (o : Int) (s : CubeState) :
    (startTimerFromSetup o s).dig04 = s.dig04 := by
  unfold startTimerFromSetup
  simp

/-- Projection fact: `startTimerFromSetup` leaves `initDig01` unchanged. -/
@[simp] theorem startTimerFromSetup_initDig01 (o : Int) (s : CubeState) :
    (startTimerFromSetup o s).initDig01 = s.initDig01 := by
  unfold startTimerFromSetup
  simp

/-- Projection fact: `startTimerFromSetup` leaves `initDig02` unchanged. -/
@[simp] theorem startTimerFromSetup_initDig02 (o : Int) (s : CubeState) :
    (startTimerFromSetup o s).initDig02 = s.initDig02 := by
  unfold startTimerFromSetup
  simp

/-- Projection fact: `startTimerFromSetup` leaves `initDig03` unchanged. -/
@[simp] theorem startTimerFromSetup_initDig03 (o : Int) (s : CubeState) :
    (startTimerFromSetup o s).initDig03 = s.initDig03 := by
  unfold startTimerFromSetup
  simp

/-- Projection fact: `startTimerFromSetup` leaves `initDig04` unchanged. -/
@[simp] theorem startTimerFromSetup_initDig04 (o : Int) (s : CubeState) :
    (startTimerFromSetup o s).initDig04 = s.initDig04 := by
  unfold startTimerFromSetup
  simp

/-- Projection fact: `startTimerFromSetup` leaves `soundEnabled` unchanged. -/
@[simp] theorem startTimerFromSetup_soundEnabled (o : Int) (s : CubeState) :
    (startTimerFromSetup o s).soundEnabled = s.soundEnabled := by
  unfold startTimerFromSetup
  simp

/-- Projection fact: `resetToSetup` leaves `timeList` unchanged. -/
@[simp] theorem resetToSetup_timeList (s : CubeState) :
    (resetToSetup s).timeList = s.timeList := by
  unfold resetToSetup restoreSetupDigits
  simp

/-- Projection fact: `resetToSetup` leaves `negativeList` unchanged. -/
@[simp] theorem resetToSetup_negativeList (s : CubeState) :
    (resetToSetup s).negativeList = s.negativeList := by
  unfold resetToSetup restoreSetupDigits
  simp

/-- Projection fact: `resetToSetup` leaves `moveTimeRemaining` unchanged. -/
@[simp] theorem resetToSetup_moveTimeRemaining (s : CubeState) :
    (resetToSetup s).moveTimeRemaining = s.moveTimeRemaining := by
  unfold resetToSetup restoreSetupDigits
  simp

/-- Projection fact: `resetToSetup` leaves `moveTimerDig01` unchanged. -/
@[simp] theorem resetToSetup_moveTimerDig01 (s : CubeState) :
    (resetToSetup s).moveTimerDig01 = s.moveTimerDig01 := by
  unfold resetToSetup restoreSetupDigits
  simp

/-- Projection fact: `resetToSetup` leaves `moveTimerDig02` unchanged. -/
@[simp] theorem resetToSetup_moveTimerDig02 (s : CubeState) :
    (resetToSetup s).moveTimerDig02 = s.moveTimerDig02 := by
  unfold resetToSetup restoreSetupDigits
  simp

/-- Projection fact: `resetToSetup` leaves `moveTimerDig03` unchanged. -/
@[simp] theorem resetToSetup_moveTimerDig03 (s : CubeState) :
    (resetToSetup s).moveTimerDig03 = s.moveTimerDig03 := by
  unfold resetToSetup restoreSetupDigits
  simp

/-- Projection fact: `resetToSetup` leaves `moveTimerDig04` unchanged. -/
@[simp] theorem resetToSetup_moveTimerDig04 (s : CubeState) :
    (resetToSetup s).moveTimerDig04 = s.moveTimerDig04 := by
  unfold resetToSetup restoreSetupDigits
  simp

/-- Projection fact: `resetToSetup` leaves `currentFace` unchanged. -/
@[simp] theorem resetToSetup_currentFace (s : CubeState) :
    (resetToSetup s).currentFace = s.currentFace := by
  unfold resetToSetup restoreSetupDigits
  simp

/-- Projection fact: `resetToSetup` leaves `currentTimerMode` unchanged. -/
@[simp] theorem resetToSetup_currentTimerMode (s : CubeState) :
    (resetToSetup s).currentTimerMode = s.currentTimerMode := by
  unfold resetToSetup restoreSetupDigits
  simp

/-- Projection fact: `resetToSetup` leaves `soundEnabled` unchanged. -/
@[simp] theorem resetToSetup_soundEnabled (s : CubeState) :
    (resetToSetup s).soundEnabled = s.soundEnabled := by
  unfold resetToSetup restoreSetupDigits
  simp

/-- Projection fact: `resetToSetup` leaves `initDig01` unchanged. -/
@[simp] theorem resetToSetup_initDig01 (s : CubeState) :
    (resetToSetup s).initDig01 = s.initDig01 := by
  unfold resetToSetup restoreSetupDigits
  simp

/-- Projection fact: `resetToSetup` leaves `initDig02` unchanged. -/
@[simp] theorem resetToSetup_initDig02 (s : CubeState) :
    (resetToSetup s).initDig02 = s.initDig02 := by
  unfold resetToSetup restoreSetupDigits
  simp

/-- Projection fact: `resetToSetup` leaves `initDig03` unchanged. -/
@[simp] theorem resetToSetup_initDig03 (s : CubeState) :
    (resetToSetup s).initDig03 = s.initDig03 := by
  unfold resetToSetup restoreSetupDigits
  simp

/-- Projection fact: `resetToSetup` leaves `initDig04` unchanged. -/
@[simp] theorem resetToSetup_initDig04 (s : CubeState) :
    (resetToSetup s).initDig04 = s.initDig04 := by
  unfold resetToSetup restoreSetupDigits
  simp

/-- Projection fact: `resetToModeSelect` leaves `timeList` unchanged. -/
@[simp] theorem resetToModeSelect_timeList (s : CubeState) :
    (resetToModeSelect s).timeList = s.timeList := by
  unfold resetToModeSelect
  simp

/-- Projection fact: `resetToModeSelect` leaves `negativeList` unchanged. -/
@[simp] theorem resetToModeSelect_negativeList (s : CubeState) :
    (resetToModeSelect s).negativeList = s.negativeList := by
  unfold resetToModeSelect
  simp

/-- Projection fact: `resetToModeSelect` leaves `moveTimeRemaining` unchanged. -/
@[simp] theorem resetToModeSelect_moveTimeRemaining (s : CubeState) :
    (resetToModeSelect s).moveTimeRemaining = s.moveTimeRemaining := by
  unfold resetToModeSelect
  simp

/-- Projection fact: `resetToModeSelect` leaves `moveTimerDig01` unchanged. -/
@[simp] theorem resetToModeSelect_moveTimerDig01 (s : CubeState) :
    (resetToModeSelect s).moveTimerDig01 = s.moveTimerDig01 := by
  unfold resetToModeSelect
  simp

/-- Projection fact: `resetToModeSelect` leaves `moveTimerDig02` unchanged. -/
@[simp] theorem resetToModeSelect_moveTimerDig02 (s : CubeState) :
    (resetToModeSelect s).moveTimerDig02 = s.moveTimerDig02 := by
  unfold resetToModeSelect
  simp

/-- Projection fact: `resetToModeSelect` leaves `moveTimerDig03` unchanged. -/
@[simp] theorem resetToModeSelect_moveTimerDig03 (s : CubeState) :
    (resetToModeSelect s).moveTimerDig03 = s.moveTimerDig03 := by
  unfold resetToModeSelect
  simp

/-- Projection fact: `resetToModeSelect` leaves `moveTimerDig04` unchanged. -/
@[simp] theorem resetToModeSelect_moveTimerDig04 (s : CubeState) :
    (resetToModeSelect s).moveTimerDig04 = s.moveTimerDig04 := by
  unfold resetToModeSelect
  simp

/-- Projection fact: `resetToModeSelect` leaves `currentFace` unchanged. -/
@[simp] theorem resetToModeSelect_currentFace (s : CubeState) :
    (resetToModeSelect s).currentFace = s.currentFace := by
  unfold resetToModeSelect
  simp

/-- Projection fact: `resetToModeSelect` leaves `currentTimerMode` unchanged. -/
@[simp] theorem resetToModeSelect_currentTimerMode (s : CubeState) :
    (resetToModeSelect s).currentTimerMode = s.currentTimerMode := by
  unfold resetToModeSelect
  simp

/-- Projection fact: `resetToModeSelect` leaves `soundEnabled` unchanged. -/
@[simp] theorem resetToModeSelect_soundEnabled (s : CubeState) :
    (resetToModeSelect s).soundEnabled = s.soundEnabled := by
  unfold resetToModeSelect
  simp

/-- Projection fact: `resetToModeSelect` leaves `dig01` unchanged. -/
@[simp] theorem resetToModeSelect_dig01 (s : CubeState) :
    (resetToModeSelect s).dig01 = s.dig01 := by
  unfold resetToModeSelect
  simp

/-- Projection fact: `resetToModeSelect` leaves `dig02` unchanged. -/
@[simp] theorem resetToModeSelect_dig02 (s : CubeState) :
    (resetToModeSelect s).dig02 = s.dig02 := by
  unfold resetToModeSelect
  simp

/-- Projection fact: `resetToModeSelect` leaves `dig03` unchanged. -/
@[simp] theorem resetToModeSelect_dig03 (s : CubeState) :
    (resetToModeSelect s).dig03 = s.dig03 := by
  unfold resetToModeSelect
  simp

/-- Projection fact: `resetToModeSelect` leaves `dig04` unchanged. -/
@[simp] theorem resetToModeSelect_dig04 (s : CubeState) :
    (resetToModeSelect s).dig04 = s.dig04 := by
  unfold resetToModeSelect
  simp

/-- Projection fact: `resetToModeSelect` leaves `initDig01` unchanged. -/
@[simp] theorem resetToModeSelect_initDig01 (s : CubeState) :
    (resetToModeSelect s).initDig01 = s.initDig01 := by
  unfold resetToModeSelect
  simp

/-- Projection fact: `resetToModeSelect` leaves `initDig02` unchanged. -/
@[simp] theorem resetToModeSelect_initDig02 (s : CubeState) :
    (resetToModeSelect s).initDig02 = s.initDig02 := by
  unfold resetToModeSelect
  simp

/-- Projection fact: `resetToModeSelect` leaves `initDig03` unchanged. -/
@[simp] theorem resetToModeSelect_initDig03 (s : CubeState) :
    (resetToModeSelect s).initDig03 = s.initDig03 := by
  unfold resetToModeSelect
  simp

/-- Projection fact: `resetToModeSelect` leaves `initDig04` unchanged. -/
@[simp] theorem resetToModeSelect_initDig04 (s : CubeState) :
    (resetToModeSelect s).initDig04 = s.initDig04 := by
  unfold resetToModeSelect
  simp

/-- The digits restored by `resetToSetup` are the committed setup values. -/
@[simp] theorem resetToSetup_dig01 (s : CubeState) :
    (resetToSetup s).dig01 = s.initDig01 := by
  unfold resetToSetup restoreSetupDigits
  simp

/-- The digits restored by `resetToSetup` are the committed setup values. -/
@[simp] theorem resetToSetup_dig02 (s : CubeState) :
    (resetToSetup s).dig02 = s.initDig02 := by
  unfold resetToSetup restoreSetupDigits
  simp

/-- The digits restored by `resetToSetup` are the committed setup values. -/
@[simp] theorem resetToSetup_dig03 (s : CubeState) :
    (resetToSetup s).dig03 = s.initDig03 := by
  unfold resetToSetup restoreSetupDigits
  simp

/-- The digits restored by `resetToSetup` are the committed setup values. -/
@[simp] theorem resetToSetup_dig04 (s : CubeState) :
    (resetToSetup s).dig04 = s.initDig04 := by
  unfold resetToSetup restoreSetupDigits
  simp

/-- The face seeded when the timer starts from Setup. -/
theorem startTimerFromSetup_currentFace (o : Int) (s : CubeState) :
    (startTimerFromSetup o s).currentFace = if o ≥ 0 then o else 4 := by
  unfold startTimerFromSetup
  simp

/-- The face seeded when the timer resumes. -/
theorem resumeTimer_currentFace (o : Int) (s : CubeState) :
    (resumeTimer o s).currentFace = if o ≥ 0 then o else 4 := by
  unfold resumeTimer
  simp


/-- Unfolding fact: one tick of `runTicks` peels one `loopTimerStep`. -/
theorem runTicks_succ_fst (o : Int) (az : ℚ) (n : Nat) (s : CubeState) :
    (runTicks o az (n + 1) s).1 = (runTicks o az n (loopTimerStep o az s).1).1 := rfl

/-- Base fact: zero ticks change nothing. -/
theorem runTicks_zero (o : Int) (az : ℚ) (s : CubeState) :
    runTicks o az 0 s = (s, []) := rfl

/-- C3: on any running Move-Timer tick whose classified face differs from
the current face, the shared countdown is reloaded from the committed base
on that same tick, before the countdown step runs: the face-change block
already holds the base, and the tick ends displaying the base digits (not
the old remaining, which is discarded undecremented) with base - 1 left. -/
theorem C3_face_change_resets_move_timer (s : CubeState) (orientation : Int) (accelZ : ℚ)
    (hscr : s.currentScreen = SCREEN_TIMER) (hrun : s.statusFlg = true)
    (hmode : s.currentTimerMode = MOVE_TIMER)
    (horient : 0 ≤ orientation) (hneq : orientation ≠ s.currentFace)
    (hbase : 0 < moveTimerBase s) :
    ((faceChangeStep orientation s).1).moveTimeRemaining = moveTimerBase s ∧
    ((loopTimerStep orientation accelZ s).1).moveTimeRemaining = moveTimerBase s - 1 ∧
    digitsOf ((loopTimerStep orientation accelZ s).1) =
      calculateTimeDigits (moveTimerBase s) := by
  have hfc : (faceChangeStep orientation s).1 =
      switchToNextPlayer { s with currentFace := orientation, needsFullRedraw := true,
                                  needsBatteryUpdate := true } := by
    simp [faceChangeStep, horient, hneq, hmode]
  have h1 : ((faceChangeStep orientation s).1).moveTimeRemaining = moveTimerBase s := by
    rw [hfc, switchToNextPlayer_moveTimeRemaining]
    simp [moveTimerBase]
  have hmode1 : ((faceChangeStep orientation s).1).currentTimerMode = MOVE_TIMER := by
    rw [hfc, switchToNextPlayer_currentTimerMode]
    exact hmode
  have hstep : loopTimerStep orientation accelZ s = timerTickBody orientation accelZ s := by
    unfold loopTimerStep
    rw [if_pos ⟨hscr, hrun⟩]
  have hbody : timerTickBody orientation accelZ s =
      ({ drawPhase (modeUpdate orientation
                      (wakeStep (faceChangeStep orientation s).1)).1 with
           pauseFlg := false },
       (faceChangeStep orientation s).2 ++
         (modeUpdate orientation (wakeStep (faceChangeStep orientation s).1)).2) := by
    unfold timerTickBody
    rw [if_pos horient]
  have hWmtr : (wakeStep (faceChangeStep orientation s).1).moveTimeRemaining =
      moveTimerBase s := by
    rw [wakeStep_moveTimeRemaining, h1]
  have hWmode : (wakeStep (faceChangeStep orientation s).1).currentTimerMode =
      MOVE_TIMER := by
    rw [wakeStep_currentTimerMode, hmode1]
  have hupd : modeUpdate orientation (wakeStep (faceChangeStep orientation s).1) =
      updateMoveTimer orientation (wakeStep (faceChangeStep orientation s).1) :=
    modeUpdate_move _ _ hWmode
  have hpos : 0 < (wakeStep (faceChangeStep orientation s).1).moveTimeRemaining := by
    rw [hWmtr]
    exact hbase
  obtain ⟨hm1, hm2⟩ := updateMoveTimer_pos orientation _ hpos
  refine ⟨h1, ?_, ?_⟩
  · rw [hstep, hbody]
    show (drawPhase (modeUpdate orientation
            (wakeStep (faceChangeStep orientation s).1)).1).moveTimeRemaining =
      moveTimerBase s - 1
    rw [drawPhase_moveTimeRemaining, hupd, hm1, hWmtr]
  · rw [hstep, hbody]
    show digitsOf (drawPhase (modeUpdate orientation
            (wakeStep (faceChangeStep orientation s).1)).1) =
      calculateTimeDigits (moveTimerBase s)
    rw [digitsOf_drawPhase, hupd, hm2, hWmtr]

/-- Witness for C3: base 5 with 3 seconds left on face 0, switching to
face 1, reloads to 5 inside the tick and ends the tick displaying 00:05
with 4 seconds left. -/
theorem C3_face_change_resets_move_timer_witness :
    ((faceChangeStep 1 sMove53).1).moveTimeRemaining = 5 ∧
    ((loopTimerStep 1 0 sMove53).1).moveTimeRemaining = 4 ∧
    displayOf ((loopTimerStep 1 0 sMove53).1) = "00:05" := by
  have h := C3_face_change_resets_move_timer sMove53 1 0 rfl rfl rfl
    (by decide) (by decide) (by decide)
  exact ⟨h.1.trans (by decide), h.2.1.trans (by decide), by decide⟩

/-- One running Move-Timer tick on the current face with an expired shared
countdown holds it at 0, displays 00:00 digits and preserves the guards. -/
theorem moveTick_hold (s : CubeState) (accelZ : ℚ)
    (hscr : s.currentScreen = SCREEN_TIMER) (hrun : s.statusFlg = true)
    (hmode : s.currentTimerMode = MOVE_TIMER) (hface : 0 ≤ s.currentFace)
    (hmtr : s.moveTimeRemaining = 0) :
    ((loopTimerStep s.currentFace accelZ s).1).moveTimeRemaining = 0 ∧
    ((loopTimerStep s.currentFace accelZ s).1).dig01 = 0 ∧
    ((loopTimerStep s.currentFace accelZ s).1).dig02 = 0 ∧
    ((loopTimerStep s.currentFace accelZ s).1).dig03 = 0 ∧
    ((loopTimerStep s.currentFace accelZ s).1).dig04 = 0 ∧
    ((loopTimerStep s.currentFace accelZ s).1).currentFace = s.currentFace ∧
    ((loopTimerStep s.currentFace accelZ s).1).currentScreen = SCREEN_TIMER ∧
    ((loopTimerStep s.currentFace accelZ s).1).statusFlg = true ∧
    ((loopTimerStep s.currentFace accelZ s).1).currentTimerMode = MOVE_TIMER := by
  have hstep : loopTimerStep s.currentFace accelZ s = timerTickBody s.currentFace accelZ s := by
    unfold loopTimerStep
    rw [if_pos ⟨hscr, hrun⟩]
  have hfc : faceChangeStep s.currentFace s = (s, []) :=
    faceChangeStep_same _ _ (by simp)
  have hbody : timerTickBody s.currentFace accelZ s =
      ({ drawPhase (modeUpdate s.currentFace
                      (wakeStep (faceChangeStep s.currentFace s).1)).1 with
           pauseFlg := false },
       (faceChangeStep s.currentFace s).2 ++
         (modeUpdate s.currentFace (wakeStep (faceChangeStep s.currentFace s).1)).2) := by
    unfold timerTickBody
    rw [if_pos hface]
  have hWmode : (wakeStep s).currentTimerMode = MOVE_TIMER := by
    rw [wakeStep_currentTimerMode]
    exact hmode
  have hupd := modeUpdate_move s.currentFace (wakeStep s) hWmode
  have hWmtr : ¬0 < (wakeStep s).moveTimeRemaining := by
    rw [wakeStep_moveTimeRemaining, hmtr]
    omega
  obtain ⟨hz0, hz1, hz2, hz3, hz4, -⟩ := updateMoveTimer_zero s.currentFace (wakeStep s) hWmtr
  rw [hstep, hbody, hfc]
  refine ⟨?_, ?_, ?_, ?_, ?_, ?_, ?_, ?_, ?_⟩ <;>
    simp [hupd, hz0, hz1, hz2, hz3, hz4, hmtr, hscr, hrun, hmode]

/-- C7: in Move-Timer mode, once the shared countdown has reached 0, every
further running tick on the same face holds it at 0 with the display stuck
at 00:00, with no overtime count-up, for any number of ticks. -/
theorem C7_move_timer_holds_at_zero (s : CubeState) (accelZ : ℚ) (n : Nat)
    (hscr : s.currentScreen = SCREEN_TIMER) (hrun : s.statusFlg = true)
    (hmode : s.currentTimerMode = MOVE_TIMER) (hface : 0 ≤ s.currentFace)
    (hmtr : s.moveTimeRemaining = 0) :
    ((runTicks s.currentFace accelZ n s).1).moveTimeRemaining = 0 ∧
    (1 ≤ n → displayOf ((runTicks s.currentFace accelZ n s).1) = "00:00") := by
  induction n generalizing s with
  | zero =>
    exact ⟨hmtr, fun h => absurd h (by omega)⟩
  | succ n ih =>
    obtain ⟨h0, h1, h2, h3, h4, hfa, hsc, hst, hmo⟩ :=
      moveTick_hold s accelZ hscr hrun hmode hface hmtr
    have hrec := ih (loopTimerStep s.currentFace accelZ s).1 hsc hst hmo
      (by rw [hfa]; exact hface) h0
    rw [hfa] at hrec
    constructor
    · rw [runTicks_succ_fst]
      exact hrec.1
    · intro _
      rw [runTicks_succ_fst]
      cases n with
      | zero =>
        rw [runTicks_zero]
        show displayOf (loopTimerStep s.currentFace accelZ s).1 = "00:00"
        unfold displayOf formatTime
        rw [h1, h2, h3, h4]
        decide
      | succ m =>
        exact hrec.2 (by omega)

/-- Witness for C7: the concrete expired Move-Timer state held at zero over
three ticks, displaying 00:00. -/
theorem C7_move_timer_holds_at_zero_witness :
    ((runTicks sMove0.currentFace 0 3 sMove0).1).moveTimeRemaining = 0 ∧
    displayOf ((runTicks sMove0.currentFace 0 3 sMove0).1) = "00:00" := by
  have h := C7_move_timer_holds_at_zero sMove0 0 3 rfl rfl rfl (by decide) rfl
  exact ⟨h.1, h.2 (by omega)⟩

/-- C8 (amended): in Game-Timer mode the low 300ms expiry tone fires
exactly once per countdown pass — on the single tick that raises the
overtime flag — and on no countdown or overtime tick; in Move-Timer mode
the same tone instead fires on every tick spent at remaining 0, repeating
once per second until the face changes. -/
theorem C8_expiry_tone_per_mode (s : CubeState) (orientation : Int) (f : Fin 5)
    (hidx : toIdx orientation = some f) (hsound : s.soundEnabled = true) :
    (s.negativeList f ≠ 1 → s.timeList f = 0 →
        (updateGameTimer orientation s).2 = [(TONE_FREQ_LOW, TONE_DURATION_WARNING * 3)] ∧
        ((updateGameTimer orientation s).1).negativeList f = 1) ∧
    (s.negativeList f = 1 →
        (updateGameTimer orientation s).2 = [] ∧
        ((updateGameTimer orientation s).1).negativeList f = 1) ∧
    (s.negativeList f ≠ 1 → 0 < s.timeList f →
        (TONE_FREQ_LOW, TONE_DURATION_WARNING * 3) ∉ (updateGameTimer orientation s).2) ∧
    (s.moveTimeRemaining = 0 →
        (updateMoveTimer orientation s).2 = [(TONE_FREQ_LOW, TONE_DURATION_WARNING * 3)]) := by
  refine ⟨fun hflag hz => ?_, fun hflag => ?_, fun hflag hpos => ?_, fun hmtr => ?_⟩
  · obtain ⟨hn, ht, hd, htone⟩ :=
      updateGameTimer_expiry orientation f s hidx hflag (by omega)
    refine ⟨by rw [htone, if_pos hsound], ?_⟩
    rw [hn]
    simp [updF]
  · obtain ⟨hn, -, -, htone⟩ := updateGameTimer_overtime orientation f s hidx hflag
    refine ⟨htone, ?_⟩
    rw [hn]
    exact hflag
  · rw [updateGameTimer_countdown orientation f s hidx hflag hpos]
    rcases checkTimeWarnings_tones (s.timeList f) orientation
      { setDigits s (calculateTimeDigits (s.timeList f)) with
          timeList := updF s.timeList f (s.timeList f - 1) } with h | h | h <;>
      rw [h] <;> decide
  · obtain ⟨-, -, -, -, -, htone⟩ :=
      updateMoveTimer_zero orientation s (by omega)
    rw [htone, if_pos hsound]

/-- Witness for C8 (amended): on a state with an expired game slot and an
expired move countdown, both modes emit the expiry tone on this tick. -/
theorem C8_expiry_tone_per_mode_witness :
    (updateGameTimer 0 sExpired).2 = [(TONE_FREQ_LOW, TONE_DURATION_WARNING * 3)] ∧
    (updateMoveTimer 0 sExpired).2 = [(TONE_FREQ_LOW, TONE_DURATION_WARNING * 3)] := by
  have h := C8_expiry_tone_per_mode sExpired 0 0 (by decide) rfl
  exact ⟨(h.1 (by decide) rfl).1, h.2.2.2 rfl⟩


/-- A pointwise write of a nonnegative value keeps the array nonnegative. -/
theorem updF_nonneg {f : Fin 5 → Int} {j : Fin 5} {v : Int}
    (hf : ∀ i, 0 ≤ f i) (hv : 0 ≤ v) : ∀ i, 0 ≤ updF f j v i := by
  intro i
  unfold updF
  split
  · exact hv
  · exact hf i

/-- The MM:SS digits of a nonnegative number of seconds are nonnegative. -/
theorem calculateTimeDigits_nonneg (t : Int) (h : 0 ≤ t) :
    0 ≤ (calculateTimeDigits t).1 ∧ 0 ≤ (calculateTimeDigits t).2.1 ∧
    0 ≤ (calculateTimeDigits t).2.2.1 ∧ 0 ≤ (calculateTimeDigits t).2.2.2 := by
  unfold calculateTimeDigits
  refine ⟨?_, ?_, ?_, ?_⟩
  · exact Int.tdiv_nonneg h (by norm_num)
  · exact Int.tdiv_nonneg (Int.tmod_nonneg 600 h) (by norm_num)
  · exact Int.tdiv_nonneg (Int.tmod_nonneg 60 (Int.tmod_nonneg 600 h)) (by norm_num)
  · exact Int.tmod_nonneg 10 (Int.tmod_nonneg 60 (Int.tmod_nonneg 600 h))

/-- The warning scheduler preserves the nonnegativity invariant. -/
theorem Inv_checkTimeWarnings (r p : Int) {s : CubeState} (h : Inv s) :
    Inv (checkTimeWarnings r p s).1 := by
  unfold Inv at h ⊢
  simpa using h

/-- Clearing warning flags preserves the nonnegativity invariant. -/
theorem Inv_resetWarningFlags (p : Int) {s : CubeState} (h : Inv s) :
    Inv (resetWarningFlags p s) := by
  unfold Inv at h ⊢
  simpa using h

/-- The redraw bookkeeping preserves the nonnegativity invariant. -/
theorem Inv_drawPhase {s : CubeState} (h : Inv s) : Inv (drawPhase s) := by
  unfold Inv at h ⊢
  simpa using h

/-- The display-wake block preserves the nonnegativity invariant. -/
theorem Inv_wakeStep {s : CubeState} (h : Inv s) : Inv (wakeStep s) := by
  unfold Inv at h ⊢
  simpa using h

/-- Display power changes preserve the nonnegativity invariant. -/
theorem Inv_turnOffDisplay {s : CubeState} (h : Inv s) : Inv (turnOffDisplay s) := by
  unfold Inv at h ⊢
  simpa using h

/-- Display power changes preserve the nonnegativity invariant. -/
theorem Inv_turnOnDisplay {s : CubeState} (h : Inv s) : Inv (turnOnDisplay s) := by
  unfold Inv at h ⊢
  simpa using h

/-- Reloading the shared countdown from the base digits preserves the
nonnegativity invariant. -/
theorem Inv_switchToNextPlayer {s : CubeState} (h : Inv s) :
    Inv (switchToNextPlayer s) := by
  obtain ⟨ht, hm, h1, h2, h3, h4, hi1, hi2, hi3, hi4, hm1, hm2, hm3, hm4⟩ := h
  unfold Inv
  simp only [switchToNextPlayer_timeList, switchToNextPlayer_moveTimeRemaining,
    switchToNextPlayer_dig01, switchToNextPlayer_dig02, switchToNextPlayer_dig03,
    switchToNextPlayer_dig04, switchToNextPlayer_initDig01, switchToNextPlayer_initDig02,
    switchToNextPlayer_initDig03, switchToNextPlayer_initDig04,
    switchToNextPlayer_moveTimerDig01, switchToNextPlayer_moveTimerDig02,
    switchToNextPlayer_moveTimerDig03, switchToNextPlayer_moveTimerDig04]
  refine ⟨ht, ?_, h1, h2, h3, h4, hi1, hi2, hi3, hi4, hm1, hm2, hm3, hm4⟩
  unfold moveTimerBase
  omega

/-- One Game-Timer tick preserves the nonnegativity invariant. -/
theorem Inv_updateGameTimer (o : Int) {s : CubeState} (h : Inv s) :
    Inv (updateGameTimer o s).1 := by
  obtain ⟨ht, hm, h1, h2, h3, h4, hi1, hi2, hi3, hi4, hm1, hm2, hm3, hm4⟩ := h
  unfold updateGameTimer
  split
  · exact ⟨ht, hm, h1, h2, h3, h4, hi1, hi2, hi3, hi4, hm1, hm2, hm3, hm4⟩
  · rename_i f heq
    split_ifs with hflag hpos hsnd
    · apply Inv_checkTimeWarnings
      obtain ⟨hc1, hc2, hc3, hc4⟩ := calculateTimeDigits_nonneg (s.timeList f) (ht f)
      exact ⟨updF_nonneg ht (by have := ht f; omega), hm, hc1, hc2, hc3, hc4,
             hi1, hi2, hi3, hi4, hm1, hm2, hm3, hm4⟩
    · exact ⟨updF_nonneg ht (by omega), hm, le_refl 0, le_refl 0, le_refl 0, le_refl 0,
             hi1, hi2, hi3, hi4, hm1, hm2, hm3, hm4⟩
    · exact ⟨updF_nonneg ht (by omega), hm, le_refl 0, le_refl 0, le_refl 0, le_refl 0,
             hi1, hi2, hi3, hi4, hm1, hm2, hm3, hm4⟩
    · obtain ⟨hc1, hc2, hc3, hc4⟩ := calculateTimeDigits_nonneg (s.timeList f) (ht f)
      exact ⟨updF_nonneg ht (by have := ht f; omega), hm, hc1, hc2, hc3, hc4,
             hi1, hi2, hi3, hi4, hm1, hm2, hm3, hm4⟩

/-- One Move-Timer tick preserves the nonnegativity invariant. -/
theorem Inv_updateMoveTimer (o : Int) {s : CubeState} (h : Inv s) :
    Inv (updateMoveTimer o s).1 := by
  obtain ⟨ht, hm, h1, h2, h3, h4, hi1, hi2, hi3, hi4, hm1, hm2, hm3, hm4⟩ := h
  unfold updateMoveTimer
  split_ifs with hpos hsnd
  · apply Inv_checkTimeWarnings
    obtain ⟨hc1, hc2, hc3, hc4⟩ := calculateTimeDigits_nonneg s.moveTimeRemaining hm
    exact ⟨ht, show (0 : Int) ≤ s.moveTimeRemaining - 1 by omega, hc1, hc2, hc3, hc4,
           hi1, hi2, hi3, hi4, hm1, hm2, hm3, hm4⟩
  · exact ⟨ht, hm, le_refl 0, le_refl 0, le_refl 0, le_refl 0,
           hi1, hi2, hi3, hi4, hm1, hm2, hm3, hm4⟩
  · exact ⟨ht, hm, le_refl 0, le_refl 0, le_refl 0, le_refl 0,
           hi1, hi2, hi3, hi4, hm1, hm2, hm3, hm4⟩

/-- The per-mode tick dispatch preserves the nonnegativity invariant. -/
theorem Inv_modeUpdate (o : Int) {s : CubeState} (h : Inv s) :
    Inv (modeUpdate o s).1 := by
  unfold modeUpdate
  split_ifs
  · exact Inv_updateGameTimer o h
  · exact Inv_updateMoveTimer o h

/-- The face-change block preserves the nonnegativity invariant. -/
theorem Inv_faceChangeStep (o : Int) {s : CubeState} (h : Inv s) :
    Inv (faceChangeStep o s).1 := by
  unfold faceChangeStep
  split_ifs <;>
    first
    | exact h
    | exact Inv_switchToNextPlayer h

/-- The full tick body preserves the nonnegativity invariant. -/
theorem Inv_timerTickBody (o : Int) (az : ℚ) {s : CubeState} (h : Inv s) :
    Inv (timerTickBody o az s).1 := by
  unfold timerTickBody
  split_ifs <;>
    first
    | exact Inv_drawPhase (Inv_modeUpdate o (Inv_wakeStep (Inv_faceChangeStep o h)))
    | exact Inv_turnOffDisplay (Inv_faceChangeStep o h)
    | exact Inv_faceChangeStep o h

/-- The guarded 1-second tick preserves the nonnegativity invariant. -/
theorem Inv_loopTimerStep (o : Int) (az : ℚ) {s : CubeState} (h : Inv s) :
    Inv (loopTimerStep o az s).1 := by
  unfold loopTimerStep
  split_ifs
  · exact Inv_timerTickBody o az h
  · exact h

/-- Digit editing preserves the nonnegativity invariant. -/
theorem Inv_incrementDigit {s : CubeState} (h : Inv s) : Inv (incrementDigit s) := by
  obtain ⟨ht, hm, h1, h2, h3, h4, hi1, hi2, hi3, hi4, hm1, hm2, hm3, hm4⟩ := h
  unfold incrementDigit
  split_ifs <;>
    refine ⟨ht, hm, ?_, ?_, ?_, ?_, ?_, ?_, ?_, ?_, hm1, hm2, hm3, hm4⟩ <;>
    dsimp only <;>
    omega

/-- Cursor movement preserves the nonnegativity invariant. -/
theorem Inv_nextDigitPosition {s : CubeState} (h : Inv s) :
    Inv (nextDigitPosition s) := h

/-- Committing the digit entry (either mode) preserves the invariant. -/
theorem Inv_initializeTimers {s : CubeState} (h : Inv s) :
    Inv (initializeTimers s) := by
  obtain ⟨ht, hm, h1, h2, h3, h4, hi1, hi2, hi3, hi4, hm1, hm2, hm3, hm4⟩ := h
  unfold initializeTimers
  split_ifs
  · exact ⟨fun i => show (0 : Int) ≤ s.dig01 * 600 + s.dig02 * 60 + s.dig03 * 10 + s.dig04
             by omega,
           hm, h1, h2, h3, h4, hi1, hi2, hi3, hi4, hm1, hm2, hm3, hm4⟩
  · exact ⟨ht, show (0 : Int) ≤ s.dig01 * 600 + s.dig02 * 60 + s.dig03 * 10 + s.dig04
             by omega,
           h1, h2, h3, h4, hi1, hi2, hi3, hi4, h1, h2, h3, h4⟩

/-- Starting the timer from Setup preserves the invariant. -/
theorem Inv_startTimerFromSetup (o : Int) {s : CubeState} (h : Inv s) :
    Inv (startTimerFromSetup o s) := by
  have h2 := Inv_resetWarningFlags (-1) (Inv_initializeTimers h)
  unfold Inv at h2 ⊢
  simpa [startTimerFromSetup] using h2

/-- Pausing preserves the invariant. -/
theorem Inv_pauseTimer {s : CubeState} (h : Inv s) : Inv (pauseTimer s) := h

/-- Resuming preserves the invariant. -/
theorem Inv_resumeTimer (o : Int) {s : CubeState} (h : Inv s) :
    Inv (resumeTimer o s) := by
  unfold Inv at h ⊢
  simpa using h

/-- Going back to Setup preserves the invariant (the digits are restored
from the committed values, which the invariant also bounds). -/
theorem Inv_resetToSetup {s : CubeState} (h : Inv s) : Inv (resetToSetup s) := by
  obtain ⟨ht, hm, h1, h2, h3, h4, hi1, hi2, hi3, hi4, hm1, hm2, hm3, hm4⟩ := h
  unfold Inv
  simp only [resetToSetup_timeList, resetToSetup_moveTimeRemaining, resetToSetup_dig01,
    resetToSetup_dig02, resetToSetup_dig03, resetToSetup_dig04, resetToSetup_initDig01,
    resetToSetup_initDig02, resetToSetup_initDig03, resetToSetup_initDig04,
    resetToSetup_moveTimerDig01, resetToSetup_moveTimerDig02, resetToSetup_moveTimerDig03,
    resetToSetup_moveTimerDig04]
  exact ⟨ht, hm, hi1, hi2, hi3, hi4, hi1, hi2, hi3, hi4, hm1, hm2, hm3, hm4⟩

/-- Going back to mode-select preserves the invariant. -/
theorem Inv_resetToModeSelect {s : CubeState} (h : Inv s) :
    Inv (resetToModeSelect s) := by
  unfold Inv at h ⊢
  simpa using h

/-- The full reset preserves the invariant. -/
theorem Inv_resetCurrentTimer {s : CubeState} (h : Inv s) :
    Inv (resetCurrentTimer s) := by
  unfold resetCurrentTimer
  apply Inv_initializeTimers
  apply Inv_turnOnDisplay
  obtain ⟨ht, hm, h1, h2, h3, h4, hi1, hi2, hi3, hi4, hm1, hm2, hm3, hm4⟩ := h
  unfold Inv
  simp only [resetWarningFlags_timeList, resetWarningFlags_moveTimeRemaining,
    resetWarningFlags_dig01, resetWarningFlags_dig02, resetWarningFlags_dig03,
    resetWarningFlags_dig04, resetWarningFlags_initDig01, resetWarningFlags_initDig02,
    resetWarningFlags_initDig03, resetWarningFlags_initDig04,
    resetWarningFlags_moveTimerDig01, resetWarningFlags_moveTimerDig02,
    resetWarningFlags_moveTimerDig03, resetWarningFlags_moveTimerDig04]
  exact ⟨ht, hm, h1, h2, h3, h4, hi1, hi2, hi3, hi4, hm1, hm2, hm3, hm4⟩

/-- The screen-dependent button dispatch preserves the invariant. -/
theorem Inv_handlePhysicalButtons (l c r : Bool) (o : Int) {s : CubeState} (h : Inv s) :
    Inv (handlePhysicalButtons l c r o s) := by
  unfold handlePhysicalButtons
  split
  · split_ifs <;> exact h
  · split_ifs <;> exact h
  · (try dsimp only) <;> split_ifs <;>
      first
      | exact h
      | exact Inv_incrementDigit h
      | exact Inv_nextDigitPosition h
      | exact Inv_startTimerFromSetup o h
      | exact Inv_nextDigitPosition (Inv_incrementDigit h)
      | exact Inv_startTimerFromSetup o (Inv_incrementDigit h)
      | exact Inv_nextDigitPosition (Inv_startTimerFromSetup o h)
      | exact Inv_nextDigitPosition (Inv_startTimerFromSetup o (Inv_incrementDigit h))
  · (try dsimp only) <;> split_ifs <;> (try split_ifs) <;>
      first
      | exact h
      | exact Inv_resetToSetup h
      | exact Inv_resumeTimer o h
      | exact Inv_pauseTimer h
      | exact Inv_resumeTimer o (Inv_resetToSetup h)
      | exact Inv_pauseTimer (Inv_resetToSetup h)

/-- The input handler (wake path included) preserves the invariant. -/
theorem Inv_handleButtons (l c r : Bool) (o : Int) {s : CubeState} (h : Inv s) :
    Inv (handleButtons l c r o s) := by
  unfold handleButtons
  split_ifs
  · exact h
  · exact Inv_handlePhysicalButtons l c r o h


/-- C6: the remaining-seconds storage is nonnegative in every reachable
state: the invariant (all 5 slots, the shared move countdown and the digit
registers nonnegative) is preserved by the 1-second tick (face changes
included), by every button event (digit commit and resets included) and by
the full reset; and the transition into overtime happens exactly at the
single tick at which the active slot would otherwise go negative (the flag
is raised when the slot reads 0 and is untouched while it is positive). -/
theorem C6_remaining_nonneg (s : CubeState) (orientation : Int) (accelZ : ℚ)
    (l c r : Bool) (f : Fin 5) (h : Inv s) :
    Inv initialState ∧
    ((∀ i : Fin 5, 0 ≤ s.timeList i) ∧ 0 ≤ s.moveTimeRemaining) ∧
    Inv ((loopTimerStep orientation accelZ s).1) ∧
    Inv (handleButtons l c r orientation s) ∧
    Inv (resetCurrentTimer s) ∧
    (toIdx orientation = some f → s.negativeList f ≠ 1 →
       ((s.timeList f = 0 → ((updateGameTimer orientation s).1).negativeList f = 1) ∧
        (0 < s.timeList f →
          ((updateGameTimer orientation s).1).negativeList f = s.negativeList f))) := by
  refine ⟨by unfold Inv; decide, ⟨h.1, h.2.1⟩, Inv_loopTimerStep orientation accelZ h,
         Inv_handleButtons l c r orientation h, Inv_resetCurrentTimer h,
         fun hidx hflag => ⟨fun hz => ?_, fun hpos => ?_⟩⟩
  · obtain ⟨hn, -, -, -⟩ := updateGameTimer_expiry orientation f s hidx hflag (by omega)
    rw [hn]
    simp [updF]
  · rw [updateGameTimer_countdown orientation f s hidx hflag hpos,
        checkTimeWarnings_negativeList]
    rfl

/-- Witness for C6 on the expired concrete state: the invariant survives a
tick and the overtime flag is raised exactly on the 0-tick. -/
theorem C6_remaining_nonneg_witness :
    Inv ((loopTimerStep 0 0 sExpired).1) ∧
    ((updateGameTimer 0 sExpired).1).negativeList 0 = 1 := by
  have h := C6_remaining_nonneg sExpired 0 0 true false false 0 (by unfold Inv; decide)
  exact ⟨h.2.2.1, (h.2.2.2.2.2 (by decide) (by decide)).1 rfl⟩

/-- The classifier can only produce -1 or a face index 0..4. -/
theorem detectOrientation_range (t x y z : ℚ) :
    -1 ≤ detectOrientation t x y z ∧ detectOrientation t x y z ≤ 4 := by
  unfold detectOrientation
  split_ifs <;> constructor <;> decide

/-- The face stored by the face-change block stays in 0..4. -/
theorem faceChangeStep_face_range (o : Int) {s : CubeState}
    (hs : 0 ≤ s.currentFace ∧ s.currentFace ≤ 4) (ho : o ≤ 4) :
    0 ≤ ((faceChangeStep o s).1).currentFace ∧
    ((faceChangeStep o s).1).currentFace ≤ 4 := by
  unfold faceChangeStep
  split_ifs with hcond <;> simp_all <;> omega

/-- C10: the current face is always one of 0..4 — the classifier returns
only -1..4, the boot value is 4, the tick stores a classifier result only
when it is >= 0, every button path either keeps the face or seeds it with
a classifier result falling back to 4, and the reset stores 4; so a -1
(None) classification is never stored. -/
theorem C10_currentFace_in_range (s : CubeState) (orientation : Int)
    (accelZ t x y z : ℚ) (l c r : Bool)
    (hface : 0 ≤ s.currentFace ∧ s.currentFace ≤ 4)
    (horng : -1 ≤ orientation ∧ orientation ≤ 4) :
    (-1 ≤ detectOrientation t x y z ∧ detectOrientation t x y z ≤ 4) ∧
    (0 ≤ initialState.currentFace ∧ initialState.currentFace ≤ 4) ∧
    (0 ≤ ((loopTimerStep orientation accelZ s).1).currentFace ∧
      ((loopTimerStep orientation accelZ s).1).currentFace ≤ 4) ∧
    (0 ≤ (handleButtons l c r orientation s).currentFace ∧
      (handleButtons l c r orientation s).currentFace ≤ 4) ∧
    (0 ≤ (resetCurrentTimer s).currentFace ∧
      (resetCurrentTimer s).currentFace ≤ 4) := by
  refine ⟨detectOrientation_range t x y z, by decide, ?_, ?_, ?_⟩
  · unfold loopTimerStep
    split_ifs
    · unfold timerTickBody
      split_ifs <;> (try dsimp only) <;>
        (try simp only [drawPhase_currentFace, modeUpdate_currentFace, wakeStep_currentFace,
          turnOffDisplay_currentFace]) <;>
        exact faceChangeStep_face_range orientation hface horng.2
    · exact hface
  · unfold handleButtons
    split_ifs
    · exact hface
    · unfold handlePhysicalButtons
      split <;> (try dsimp only) <;> split_ifs <;> (try split_ifs) <;>
        (try simp only [incrementDigit_currentFace, nextDigitPosition_currentFace,
          startTimerFromSetup_currentFace, resetToSetup_currentFace,
          resumeTimer_currentFace, pauseTimer_currentFace]) <;>
        (try split_ifs) <;> omega
  · simp only [resetCurrentTimer, initializeTimers_currentFace, turnOnDisplay_currentFace,
      resetWarningFlags_currentFace]
    constructor <;> decide

/-- Witness for C10 on a concrete running state and sample. -/
theorem C10_currentFace_in_range_witness :
    (-1 ≤ detectOrientation (9 / 10) 0 0 1 ∧ detectOrientation (9 / 10) 0 0 1 ≤ 4) ∧
    (0 ≤ ((loopTimerStep 4 0 sRunningDisplayOn).1).currentFace ∧
      ((loopTimerStep 4 0 sRunningDisplayOn).1).currentFace ≤ 4) := by
  have h := C10_currentFace_in_range sRunningDisplayOn 4 0 (9 / 10) 0 0 1 true false false
    (by decide) (by decide)
  exact ⟨h.1, h.2.2.1⟩

end M5Cube
